import Mathlib

/-!
Verification development for the chart-suggestion and configuration-synthesis
pipeline of a tabular-data visualization tool.  The definitions below are a
shallow embedding of the suggestion generator (chartSuggestions), the
enhancement client (mcpEChartsService) and the per-chart-type configuration
builders with their series validator, followed by theorems about them.

Modelling conventions:
* JavaScript numbers are modelled exactly by `JsNum`: a fraction with the
  denominator kept positive by construction, or NaN, or a signed infinity.
* JavaScript `undefined` appearing as a cell value or out-of-range index
  access is the `DataValue.undefV` constructor; optional object fields are
  `Option` values.
* Code that can `throw` is modelled with `Except String`; the observable
  `console.warn`/`console.error`/branch-marking `console.log` calls that the
  specification treats as observability flags are modelled as a `LogMsg` list
  threaded through the functions.
* `Math.random()` is modelled by an explicit stream `rng : Nat → Frac`
  supplying the value of the call made while processing row index `i`.
-/

/-- Exact-rational stand-in for a finite JavaScript number.  Every fraction
built by this embedding keeps a positive denominator; equality and the
comparison below are structural, and agree with rational order on values with
positive denominators. -/
structure Frac where
  num : Int
  den : Int
deriving DecidableEq, Repr

/-- Embed an integer as a fraction. -/
def Frac.ofInt (n : Int) : Frac := ⟨n, 1⟩

/-- Multiplication of fractions (no normalisation, so it kernel-reduces). -/
def Frac.mul (a b : Frac) : Frac := ⟨a.num * b.num, a.den * b.den⟩

/-- Addition of fractions. -/
def Frac.add (a b : Frac) : Frac := ⟨a.num * b.den + b.num * a.den, a.den * b.den⟩

/-- Division keeping the denominator positive when both inputs have positive
denominators and the divisor is nonzero. -/
def Frac.divPos (a b : Frac) : Frac :=
  if b.num < 0 then ⟨-(a.num * b.den), a.den * (-b.num)⟩
  else ⟨a.num * b.den, a.den * b.num⟩

/-- Zero test (exact on fractions with nonzero denominator). -/
def Frac.isZero (a : Frac) : Bool := a.num == 0

/-- Strict-positivity test of the represented rational. -/
def Frac.isPos (a : Frac) : Bool := decide (0 < a.num * a.den)

/-- Comparison by cross-multiplication; coincides with rational order on
positive denominators. -/
def Frac.ble (a b : Frac) : Bool := decide (a.num * b.den ≤ b.num * a.den)

/-- JavaScript number: a finite value, NaN, or a signed infinity. -/
inductive JsNum where
  | fin (q : Frac)
  | nan
  | inf
  | ninf
deriving DecidableEq, Repr

/-- Model of the JavaScript `isNaN` test on a number. -/
def JsNum.isNaNb : JsNum → Bool
  | .nan => true
  | _ => false

/-- Model of the JavaScript `isFinite` test on a number. -/
def JsNum.isFiniteb : JsNum → Bool
  | .fin _ => true
  | _ => false

/-- JavaScript truthiness of a number (`0` and `NaN` are falsy). -/
def JsNum.truthy : JsNum → Bool
  | .fin q => !q.isZero
  | .nan => false
  | .inf => true
  | .ninf => true

/-- Model of `a || b` on JavaScript numbers. -/
def jsNumOr (a b : JsNum) : JsNum := if a.truthy then a else b

/-- Multiplication with IEEE-style NaN/infinity propagation. -/
def JsNum.mulJ : JsNum → JsNum → JsNum
  | .nan, _ => .nan
  | _, .nan => .nan
  | .fin a, .fin b => .fin (a.mul b)
  | .inf, .fin q => if q.isZero then .nan else if q.isPos then .inf else .ninf
  | .fin q, .inf => if q.isZero then .nan else if q.isPos then .inf else .ninf
  | .ninf, .fin q => if q.isZero then .nan else if q.isPos then .ninf else .inf
  | .fin q, .ninf => if q.isZero then .nan else if q.isPos then .ninf else .inf
  | .inf, .inf => .inf
  | .inf, .ninf => .ninf
  | .ninf, .inf => .ninf
  | .ninf, .ninf => .inf

/-- Addition with NaN/infinity propagation. -/
def JsNum.addJ : JsNum → JsNum → JsNum
  | .nan, _ => .nan
  | _, .nan => .nan
  | .fin a, .fin b => .fin (a.add b)
  | .inf, .ninf => .nan
  | .ninf, .inf => .nan
  | .inf, _ => .inf
  | _, .inf => .inf
  | .ninf, _ => .ninf
  | _, .ninf => .ninf

/-- Division with NaN/infinity and division-by-zero behaviour of JavaScript. -/
def JsNum.divJ : JsNum → JsNum → JsNum
  | .nan, _ => .nan
  | _, .nan => .nan
  | .fin a, .fin b =>
      if b.isZero then
        if a.isZero then .nan else if a.isPos then .inf else .ninf
      else .fin (a.divPos b)
  | .inf, .fin q => if q.isPos then .inf else .ninf
  | .ninf, .fin q => if q.isPos then .ninf else .inf
  | .fin _, .inf => .fin (Frac.ofInt 0)
  | .fin _, .ninf => .fin (Frac.ofInt 0)
  | _, _ => .nan

/-- Binary `Math.max` (NaN absorbs, infinities compare as expected). -/
def jsMax : JsNum → JsNum → JsNum
  | .nan, _ => .nan
  | _, .nan => .nan
  | .inf, _ => .inf
  | _, .inf => .inf
  | .ninf, x => x
  | x, .ninf => x
  | .fin p, .fin q => if p.ble q then .fin q else .fin p

/-- Binary `Math.min`. -/
def jsMin : JsNum → JsNum → JsNum
  | .nan, _ => .nan
  | _, .nan => .nan
  | .ninf, _ => .ninf
  | _, .ninf => .ninf
  | .inf, x => x
  | x, .inf => x
  | .fin p, .fin q => if p.ble q then .fin p else .fin q

/-- Model of `Math.max(...l)`; with no arguments JavaScript returns
negative infinity. -/
def jsMaxList (l : List JsNum) : JsNum := l.foldl jsMax .ninf

/-- Model of `Math.min(...l)`. -/
def jsMinList (l : List JsNum) : JsNum := l.foldl jsMin .inf

/-- Cell values of the tabular model (`DataValue` in dataParser):
string, number, boolean or null, plus JavaScript `undefined` which arises
from out-of-range row access. -/
inductive DataValue where
  | str (s : String)
  | num (x : JsNum)
  | boolV (b : Bool)
  | null
  | undefV
deriving DecidableEq, Repr

/-- Accumulating decimal digit parser (kernel-reducible). -/
def parseDigits : List Char → Nat → Option Nat
  | [], acc => some acc
  | c :: rest, acc =>
      if c.isDigit then parseDigits rest (acc * 10 + (c.toNat - 48)) else none

/-- Parse a decimal integer literal, with an optional leading minus sign. -/
def jsParseIntString (s : String) : Option Int :=
  match s.data with
  | [] => none
  | '-' :: rest =>
      match rest with
      | [] => none
      | _ => (parseDigits rest 0).map (fun n => -(n : Int))
  | cs => (parseDigits cs 0).map (fun n => (n : Int))

/-- Model of JavaScript `Number(s)` for a string, covering the string forms
this development uses: the empty string, decimal integer literals, the two
infinity spellings, and arbitrary non-numeric text (which yields NaN). -/
def jsStringToNum (s : String) : JsNum :=
  if s = "" then .fin (Frac.ofInt 0)
  else
    match jsParseIntString s with
    | some n => .fin ⟨n, 1⟩
    | none =>
      if s = "Infinity" then .inf
      else if s = "-Infinity" then .ninf
      else .nan

/-- Model of JavaScript `Number(v)` on a cell value. -/
def DataValue.toNum : DataValue → JsNum
  | .str s => jsStringToNum s
  | .num x => x
  | .boolV b => .fin (Frac.ofInt (if b then 1 else 0))
  | .null => .fin (Frac.ofInt 0)
  | .undefV => .nan

/-- JavaScript truthiness of a cell value. -/
def DataValue.truthy : DataValue → Bool
  | .str s => !(s == "")
  | .num x => x.truthy
  | .boolV b => b
  | .null => false
  | .undefV => false

/-- Decimal rendering of a number, used by `String(v)`; finite values in this
development are integers, rendered as such. -/
def jsNumToString (x : JsNum) : String :=
  match x with
  | .fin q => if q.den == 1 then toString q.num else toString q.num ++ "/" ++ toString q.den
  | .nan => "NaN"
  | .inf => "Infinity"
  | .ninf => "-Infinity"

/-- Model of JavaScript `String(v)` on a cell value. -/
def DataValue.toStr : DataValue → String
  | .str s => s
  | .num x => jsNumToString x
  | .boolV b => if b then "true" else "false"
  | .null => "null"
  | .undefV => "undefined"

/-- Model of `a || b` where both sides are possibly-undefined strings
(the empty string is falsy). -/
def jsOrStrOpt (a b : Option String) : Option String :=
  match a with
  | some s => if s = "" then b else some s
  | none => b

/-- Model of `a || b` where the right side is a present string. -/
def jsOrStr (a : Option String) (b : String) : String :=
  match a with
  | some s => if s = "" then b else s
  | none => b

/-- Model of `a || b` on integers (`0` is falsy). -/
def jsOrInt (a : Option Int) (b : Int) : Int :=
  match a with
  | some n => if n = 0 then b else n
  | none => b

/-- Column type tags of the parsed tabular model. -/
inductive ColType where
  | string
  | number
  | date
deriving DecidableEq, Repr

/-- A parsed column: name, inferred type, and its raw values
(`DataColumn` in dataParser). -/
structure DataColumn where
  name : String
  ctype : ColType
  values : List DataValue
deriving DecidableEq, Repr

/-- Summary block of a parsed table. -/
structure DataSummary where
  totalRows : Nat
  totalColumns : Nat
  numericColumns : List String
  stringColumns : List String
  dateColumns : List String
deriving DecidableEq, Repr

/-- The tabular data model (`ParsedData` in dataParser). -/
structure ParsedData where
  columns : List DataColumn
  rows : List (List DataValue)
  summary : DataSummary
deriving DecidableEq, Repr

/-- The eighteen chart kinds of `ChartSuggestion.type`. -/
inductive ChartType where
  | bar | line | pie | scatter | area | radar | heatmap | funnel | gauge
  | tree | treemap | sunburst | parallel | sankey | graph | boxplot
  | candlestick | themeRiver
deriving DecidableEq, Repr

/-- Complexity tag of a suggestion. -/
inductive Complexity where
  | simple
  | intermediate
  | advanced
deriving DecidableEq, Repr

/-- A chart suggestion (`ChartSuggestion` in chartSuggestions).  The source
field `type` is `ctype` here and `series` is `seriesCol` (both renamings
avoid Lean keywords); all other fields keep their source names. -/
structure ChartSuggestion where
  ctype : ChartType
  title : String
  description : String
  confidence : Int
  xAxis : Option String := none
  yAxis : Option (List String) := none
  seriesCol : Option String := none
  reasoning : String
  aiEnhanced : Option Bool := none
  preview : Option String := none
  useCase : Option String := none
  complexity : Option Complexity := none
deriving DecidableEq, Repr

/-- The bar suggestion of the category-comparison rule. -/
def localBarSugg (data : ParsedData) : ChartSuggestion :=
  { ctype := .bar
    title := "Category Comparison"
    description := "Compare values across different categories with clear visual bars"
    confidence := 85
    xAxis := data.summary.stringColumns.head?
    yAxis := data.summary.numericColumns.head?.map (fun c => [c])
    reasoning := "Categorical data with numeric values - ideal for comparison visualization"
    useCase := some "Comparing sales by product, performance by team, or values by category"
    complexity := some .simple }

/-- The line suggestion of the time-trend rule. -/
def localLineSugg (data : ParsedData) : ChartSuggestion :=
  { ctype := .line
    title := "Time Series Trends"
    description := "Track changes and trends over time with connected data points"
    confidence := 90
    xAxis := data.summary.dateColumns.head?
    yAxis := data.summary.numericColumns.head?.map (fun c => [c])
    reasoning := "Time-based data perfect for trend analysis and forecasting"
    useCase := some "Stock prices, website traffic, sales over time, or any temporal data"
    complexity := some .simple }

/-- The pie suggestion of the proportion rule. -/
def localPieSugg (data : ParsedData) : ChartSuggestion :=
  { ctype := .pie
    title := "Proportion Analysis"
    description := "Show how parts relate to the whole with intuitive slices"
    confidence := 70
    seriesCol := data.summary.stringColumns.head?
    reasoning := "Categorical data suitable for showing parts of a whole relationship"
    useCase := some "Market share, budget allocation, survey responses, or composition analysis"
    complexity := some .simple }

/-- The scatter suggestion of the correlation rule. -/
def localScatterSugg (data : ParsedData) : ChartSuggestion :=
  { ctype := .scatter
    title := "Correlation Explorer"
    description := "Discover relationships and patterns between two numeric variables"
    confidence := 80
    xAxis := data.summary.numericColumns.head?
    yAxis := data.summary.numericColumns[1]?.map (fun c => [c])
    reasoning := "Multiple numeric variables enable correlation and pattern analysis"
    useCase := some "Height vs weight, advertising spend vs sales, or any two-variable relationship"
    complexity := some .intermediate }

/-- The area suggestion of the cumulative-timeline rule. -/
def localAreaSugg (data : ParsedData) : ChartSuggestion :=
  { ctype := .area
    title := "Cumulative Timeline"
    description := "Emphasize volume and cumulative values over time with filled areas"
    confidence := 75
    xAxis := data.summary.dateColumns.head?
    yAxis := data.summary.numericColumns.head?.map (fun c => [c])
    reasoning := "Time series data with emphasis on cumulative values and volume"
    useCase := some "Revenue accumulation, user growth, inventory levels, or volume over time"
    complexity := some .simple }

/-- The radar suggestion of the multi-metric rule. -/
def localRadarSugg : ChartSuggestion :=
  { ctype := .radar
    title := "Multi-Metric Comparison"
    description := "Compare multiple metrics simultaneously with spider web visualization"
    confidence := 75
    reasoning := "Multiple numeric dimensions perfect for comprehensive comparison"
    useCase := some "Performance evaluation, skill assessment, product comparison across features"
    complexity := some .intermediate }

/-- The heatmap suggestion of the dense-pattern rule. -/
def localHeatmapSugg : ChartSuggestion :=
  { ctype := .heatmap
    title := "Pattern Heatmap"
    description := "Reveal patterns in dense data using color intensity"
    confidence := 65
    reasoning := "Dense data structure ideal for pattern recognition through color coding"
    useCase := some "Website activity, correlation matrices, time-based patterns, or density visualization"
    complexity := some .advanced }

/-- The candidate list built by `generateLocalSuggestions` before its final
sort: one push per satisfied rule, in source order (bar, line, pie, scatter,
area, radar, heatmap). -/
def localSuggestionCandidates (data : ParsedData) : List ChartSuggestion :=
  (if data.summary.stringColumns.length ≥ 1 ∧ data.summary.numericColumns.length ≥ 1 then
    [localBarSugg data] else []) ++
  (if data.summary.dateColumns.length ≥ 1 ∧ data.summary.numericColumns.length ≥ 1 then
    [localLineSugg data] else []) ++
  (if data.summary.stringColumns.length ≥ 1 ∧ data.summary.numericColumns.length ≥ 1 then
    [localPieSugg data] else []) ++
  (if data.summary.numericColumns.length ≥ 2 then
    [localScatterSugg data] else []) ++
  (if data.summary.dateColumns.length ≥ 1 ∧ data.summary.numericColumns.length ≥ 1 then
    [localAreaSugg data] else []) ++
  (if data.summary.numericColumns.length ≥ 3 then
    [localRadarSugg] else []) ++
  (if data.summary.numericColumns.length ≥ 2 ∧ data.summary.stringColumns.length ≥ 1 then
    [localHeatmapSugg] else [])

/-- Comparator preorder of the final sort: `a` may precede `b` when the
confidence of `b` does not exceed that of `a`. -/
def confGE (a b : ChartSuggestion) : Prop := b.confidence ≤ a.confidence

instance : DecidableRel confGE :=
  fun a b => inferInstanceAs (Decidable (b.confidence ≤ a.confidence))

instance : IsTotal ChartSuggestion confGE :=
  ⟨fun a b => Int.le_total b.confidence a.confidence⟩

instance : IsTrans ChartSuggestion confGE :=
  ⟨fun _ _ _ h1 h2 => le_trans h2 h1⟩

/-- Model of `suggestions.sort((a, b) => b.confidence - a.confidence)`:
ECMAScript `Array.prototype.sort` is stable, and the stable sort by
descending confidence is exactly insertion sort under `confGE`. -/
def sortByConfidenceDesc (l : List ChartSuggestion) : List ChartSuggestion :=
  List.insertionSort confGE l

/-- The local rule-based suggestion generator (`generateLocalSuggestions`). -/
def generateLocalSuggestions (data : ParsedData) : List ChartSuggestion :=
  sortByConfidenceDesc (localSuggestionCandidates data)

/-- Observable log events (the `console.warn`/`console.error` calls and the
branch-marking `console.log` calls that the specification treats as
observability flags). -/
inductive LogMsg where
  | mcpDisabled
  | mcpTestingMode
  | mcpConnected
  | mcpNotAvailable
  | mcpNotConnectedFallback
  | gotMcpSuggestions (n : Nat)
  | usingLocalSuggestions
  | usingMcpEnhancedConfig
  | usingLocalChartConfig
  | chartTypeNotImplemented (t : ChartType)
  | errorCreatingChart (t : ChartType)
  | fallingBackToBar
  | sankeyFallbackWarn
  | graphFallbackWarn
  | boxplotFallbackWarn
  | candlestickFallbackWarn
  | themeRiverFallbackWarn
  | allSeriesFilteredWarn
deriving DecidableEq, Repr

/-- Indexing a row array with a JavaScript index: out of range (including the
sentinel -1 of a failed findIndex) yields `undefined`. -/
def rowGet (row : List DataValue) (i : Int) : DataValue :=
  if 0 ≤ i then (row[i.toNat]?).getD .undefV else .undefV

/-- Model of `columns.findIndex(p)`: the index of the first match, or -1. -/
def findColIndexBy (cols : List DataColumn) (p : DataColumn → Bool) : Int :=
  match cols.findIdx? p with
  | some i => (i : Int)
  | none => -1

/-- Model of `columns.findIndex((col) => col.name === name)`; comparing
against `undefined` never matches, giving -1. -/
def findColIndex (cols : List DataColumn) (name? : Option String) : Int :=
  match name? with
  | some n => findColIndexBy cols (fun c => c.name == n)
  | none => -1

/-- Data payload shapes produced by the per-chart-type builders. -/
inductive SData where
  | arr (l : List DataValue)
  | pairsXY (l : List (DataValue × DataValue))
  | nameValueRaw (l : List (DataValue × DataValue))
  | funnelD (l : List (String × JsNum))
  | radarD (l : List (List JsNum × String))
  | heatD (l : List (String × String × JsNum))
  | treemapD (l : List (String × JsNum))
  | sunburstD (rootName : String) (children : List (String × JsNum))
  | parallelD (l : List (List JsNum))
  | gaugeD (l : List (JsNum × Option String))
deriving DecidableEq, Repr

/-- A series object of a chart configuration.  The fields carry the
data-dependent parts of the source objects (`type`, `name`, `data`, the
line/area distinguishing style fields, and the gauge/funnel scale bounds);
style-only constant blocks of the source are elided as they carry no data. -/
structure SeriesRec where
  stype : Option String := none
  name : Option String := none
  data : Option SData := none
  smooth : Option Bool := none
  areaOpacity : Option Frac := none
  minB : Option JsNum := none
  maxB : Option JsNum := none
deriving DecidableEq, Repr

/-- Title block of a chart configuration. -/
structure TitleBlock where
  text : String
  left : String
deriving DecidableEq, Repr

/-- Tooltip behaviour descriptor (base axis-trigger styling, or the pie
item-trigger with percentage formatter). -/
inductive TooltipBlock where
  | axisStyled
  | itemPieFormatter
deriving DecidableEq, Repr

/-- Axis descriptor: a category axis with its data, or a value axis with an
optional name. -/
inductive AxisBlock where
  | category (data : List DataValue)
  | value (name : Option String)
deriving DecidableEq, Repr

/-- Radar auxiliary block: the indicator list of name/max pairs. -/
structure RadarBlock where
  indicator : List (String × JsNum)
deriving DecidableEq, Repr

/-- Visual-map range block used by heatmaps. -/
structure VisualMapBlock where
  minV : JsNum
  maxV : JsNum
deriving DecidableEq, Repr

/-- One parallel-coordinates axis descriptor. -/
structure ParallelAxisBlock where
  dim : Nat
  name : String
  minV : JsNum
  maxV : JsNum
deriving DecidableEq, Repr

/-- The chart rendering configuration (`EChartsOption` in the source). -/
structure EChartsOption where
  title : TitleBlock
  tooltip : TooltipBlock
  legend : Option Bool := none
  xAxis : Option AxisBlock := none
  yAxis : Option AxisBlock := none
  series : List SeriesRec
  color : Option (List String) := none
  radar : Option RadarBlock := none
  visualMap : Option VisualMapBlock := none
  parallelAxis : Option (List ParallelAxisBlock) := none
  parallel : Option Bool := none
deriving DecidableEq, Repr

/-- Configuration of the enhancement client (`MCPEChartsConfig`). -/
structure MCPEChartsConfig where
  serverUrl : Option String := none
  enabled : Bool
deriving DecidableEq, Repr

/-- Mutable state of the enhancement client instance: its configuration and
the `isConnected` flag. -/
structure MCPServiceState where
  config : MCPEChartsConfig
  isConnected : Bool := false
deriving DecidableEq, Repr

/-- Model of `checkServerAvailability`: the method returns `true`
unconditionally (testing mode) before any environment probe; the window-probe
code after the `return true` statement is unreachable. -/
def checkServerAvailability (_st : MCPServiceState) : Bool := true

/-- Model of the client method `initialize()`: returns the new availability
and the updated state.  The body catches every error, so the method is a
total function. -/
def serviceInit (st : MCPServiceState) : Bool × MCPServiceState × List LogMsg :=
  if !st.config.enabled then (false, st, [.mcpDisabled])
  else
    let c := checkServerAvailability st
    (c, { st with isConnected := c },
     [.mcpTestingMode] ++ (if c then [.mcpConnected] else [.mcpNotAvailable]))

/-- One column of the reduced table projection sent to the enhancement
service. -/
structure MCPPrepColumn where
  name : String
  ctype : ColType
  sampleValues : List DataValue
deriving DecidableEq, Repr

/-- The reduced table projection (`MCPDataPrep`). -/
structure MCPDataPrep where
  columns : List MCPPrepColumn
  summary : DataSummary
  rowCount : Nat
deriving DecidableEq, Repr

/-- Model of `prepareDataForMCP`. -/
def prepareDataForMCP (data : ParsedData) : MCPDataPrep :=
  { columns := data.columns.map (fun col =>
      { name := col.name, ctype := col.ctype, sampleValues := col.values.take 5 })
    summary := data.summary
    rowCount := data.rows.length }

/-- A suggestion entry of the external response shape (`MCPSuggestion`);
every field except the type tag is optional. -/
structure MCPSuggestion where
  stype : String
  title : Option String := none
  description : Option String := none
  confidence : Option Int := none
  xAxis : Option String := none
  yAxis : Option String := none
  seriesCol : Option String := none
  reasoning : Option String := none
  preview : Option String := none
  useCase : Option String := none
  complexity : Option String := none
deriving DecidableEq, Repr

/-- Model of the simulated server response of `callMCPServer` for the
`generate_suggestions` tool: the suggestion list built from the structural
flags of the table projection, in source order. -/
def mockGenerateSuggestions (dataInfo : MCPDataPrep) : List MCPSuggestion :=
  let hasCategories := dataInfo.columns.any (fun col => col.ctype == .string)
  let hasNumbers := dataInfo.columns.any (fun col => col.ctype == .number)
  let hasDates := dataInfo.columns.any (fun col => col.ctype == .date)
  let numericCount := (dataInfo.columns.filter (fun col => col.ctype == .number)).length
  (if hasCategories && hasNumbers then
    [{ stype := "bar", title := some "Smart Bar Chart"
       description := some "AI-optimized categorical comparison with intelligent grouping"
       confidence := some 95
       reasoning := some "MCP ECharts detected optimal categorical data structure with advanced styling capabilities"
       useCase := some "Sales by product, performance metrics, survey results, or any categorical comparison"
       complexity := some "simple" },
     { stype := "funnel", title := some "Conversion Funnel"
       description := some "Visualize step-by-step process or conversion rates"
       confidence := some 78
       reasoning := some "Sequential categorical data ideal for funnel visualization" }]
   else []) ++
  (if hasDates && hasNumbers then
    [{ stype := "line", title := some "Advanced Time Series"
       description := some "Interactive time-based analysis with zoom and data brush"
       confidence := some 92
       reasoning := some "Temporal data perfect for ECharts advanced time series features" },
     { stype := "area", title := some "Stacked Area Timeline"
       description := some "Show cumulative trends with smooth gradients"
       confidence := some 85
       reasoning := some "Time series data enhanced with ECharts area styling" }]
   else []) ++
  (if numericCount ≥ 3 then
    [{ stype := "parallel", title := some "Parallel Coordinates"
       description := some "Multi-dimensional data exploration with interactive filtering"
       confidence := some 88
       reasoning := some "Multiple numeric dimensions ideal for parallel coordinate analysis" },
     { stype := "radar", title := some "Multi-Metric Radar"
       description := some "Compare multiple metrics across categories"
       confidence := some 82
       reasoning := some "Rich numeric data perfect for radar chart comparison" }]
   else []) ++
  (if numericCount ≥ 2 then
    [{ stype := "scatter", title := some "Enhanced Scatter Plot"
       description := some "Correlation analysis with regression lines and clustering"
       confidence := some 90
       reasoning := some "Bivariate analysis enhanced with ECharts advanced scatter features" }]
   else []) ++
  (if hasCategories then
    [{ stype := "treemap", title := some "Hierarchical Treemap"
       description := some "Space-efficient hierarchical data visualization"
       confidence := some 75
       reasoning := some "Categorical data can be effectively shown as nested rectangles" },
     { stype := "sunburst", title := some "Sunburst Diagram"
       description := some "Multi-level categorical data with radial layout"
       confidence := some 70
       reasoning := some "Nested categorical structure ideal for sunburst visualization" }]
   else [])

/-- Reading a chart-type name back from the unchecked TypeScript cast
`(suggestion.type || "bar") as ChartSuggestion["type"]`; the mock only emits
names of this table, and unknown names are totalised to `bar`. -/
def chartTypeOfString (s : String) : ChartType :=
  if s == "line" then .line else if s == "pie" then .pie
  else if s == "scatter" then .scatter else if s == "area" then .area
  else if s == "radar" then .radar else if s == "heatmap" then .heatmap
  else if s == "funnel" then .funnel else if s == "gauge" then .gauge
  else if s == "tree" then .tree else if s == "treemap" then .treemap
  else if s == "sunburst" then .sunburst else if s == "parallel" then .parallel
  else if s == "sankey" then .sankey else if s == "graph" then .graph
  else if s == "boxplot" then .boxplot else if s == "candlestick" then .candlestick
  else if s == "themeRiver" then .themeRiver else .bar

/-- Reading a complexity tag from the cast
`(suggestion.complexity as ...) || "simple"`. -/
def complexityOfString (s : String) : Complexity :=
  if s == "intermediate" then .intermediate
  else if s == "advanced" then .advanced
  else .simple

/-- Model of `processMCPSuggestions`: map each external entry into a
`ChartSuggestion`, filling defaults. -/
def processMCPSuggestions (suggestions : List MCPSuggestion) : List ChartSuggestion :=
  suggestions.enum.map (fun p =>
    let index := p.1
    let s := p.2
    { ctype := chartTypeOfString (jsOrStr (some s.stype) "bar")
      title := jsOrStr s.title ("AI Suggested Chart " ++ toString (index + 1))
      description := jsOrStr s.description "AI-generated chart suggestion"
      confidence := jsOrInt s.confidence 85
      xAxis := s.xAxis
      yAxis := match s.yAxis with
               | some y => if y == "" then none else some [y]
               | none => none
      seriesCol := s.seriesCol
      reasoning := jsOrStr s.reasoning "Generated by MCP ECharts AI analysis"
      preview := s.preview
      useCase := s.useCase
      complexity := some (match s.complexity with
                          | some c => if c == "" then .simple else complexityOfString c
                          | none => .simple) })

/-- The bar suggestion of the client-internal fallback generator (a reduced
variant of the local bar rule with shorter texts and no useCase or
complexity). -/
def fallbackBarSugg (data : ParsedData) : ChartSuggestion :=
  { ctype := .bar, title := "Category Comparison"
    description := "Compare values across categories"
    confidence := 85
    xAxis := data.summary.stringColumns.head?
    yAxis := data.summary.numericColumns.head?.map (fun c => [c])
    reasoning := "Categorical data with numeric values - ideal for comparison" }

/-- The scatter suggestion of the client-internal fallback generator. -/
def fallbackScatterSugg (data : ParsedData) : ChartSuggestion :=
  { ctype := .scatter, title := "Correlation Analysis"
    description := "Explore relationships between variables"
    confidence := 80
    xAxis := data.summary.numericColumns.head?
    yAxis := data.summary.numericColumns[1]?.map (fun c => [c])
    reasoning := "Multiple numeric variables enable correlation analysis" }

/-- The candidate list of the client-internal fallback generator. -/
def fallbackCandidates (data : ParsedData) : List ChartSuggestion :=
  (if data.summary.stringColumns.length ≥ 1 ∧ data.summary.numericColumns.length ≥ 1 then
    [fallbackBarSugg data] else []) ++
  (if data.summary.numericColumns.length ≥ 2 then
    [fallbackScatterSugg data] else [])

/-- Model of the client-internal `generateFallbackSuggestions`: only two
rules (bar and scatter), then the same descending stable sort. -/
def generateFallbackSuggestions (data : ParsedData) : List ChartSuggestion :=
  sortByConfidenceDesc (fallbackCandidates data)

/-- Model of the client method `generateEnhancedSuggestions`.  When not
connected it returns the internal fallback list; when connected, the mock
server response always reports success with a (possibly empty, hence truthy)
suggestions array, so the processed mock suggestions are returned and the
error branches cannot fire. -/
def generateEnhancedSuggestions (st : MCPServiceState) (data : ParsedData) :
    List ChartSuggestion × List LogMsg :=
  if !st.isConnected then
    (generateFallbackSuggestions data, [.mcpNotConnectedFallback])
  else
    let suggestions := mockGenerateSuggestions (prepareDataForMCP data)
    (processMCPSuggestions suggestions, [.gotMcpSuggestions suggestions.length])

/-- Model of the top-level `generateChartSuggestions` of chartSuggestions:
initialise the client, ask for enhanced suggestions, tag a nonempty result
as aiEnhanced, otherwise run the local generator.  The embedded client
functions are total, so the catch branch of the source cannot fire. -/
def generateChartSuggestions (st : MCPServiceState) (data : ParsedData) :
    List ChartSuggestion × MCPServiceState × List LogMsg :=
  let (_r, st1, logs1) := serviceInit st
  let (mcpSuggestions, logs2) := generateEnhancedSuggestions st1 data
  if mcpSuggestions.length > 0 then
    (mcpSuggestions.map (fun s => { s with aiEnhanced := some true }), st1, logs1 ++ logs2)
  else
    (generateLocalSuggestions data, st1, logs1 ++ logs2 ++ [.usingLocalSuggestions])

/-- The exported singleton instance (`mcpEChartsService`), constructed with
`enabled: true` and not yet connected. -/
def mcpEChartsService : MCPServiceState :=
  { config := { enabled := true }, isConnected := false }

/-- The fixed 8-color palette attached to every locally synthesized
configuration. -/
def colorPalette : List String :=
  ["#6366f1", "#8b5cf6", "#06b6d4", "#10b981", "#f59e0b", "#ef4444", "#ec4899", "#6d28d9"]

/-- Truthiness of a possibly-undefined string (empty string is falsy). -/
def strTruthyOpt (o : Option String) : Bool :=
  match o with
  | some s => !(s == "")
  | none => false

/-- Interpolation of a possibly-undefined string into a template literal
(JavaScript prints the text undefined). -/
def strOfOptJs (o : Option String) : String := o.getD "undefined"

/-- Model of `rows.indexOf(row)`: index of the first equal row, or -1. -/
def jsIndexOf (l : List (List DataValue)) (row : List DataValue) : Int :=
  match l.findIdx? (fun r => r == row) with
  | some i => (i : Int)
  | none => -1

/-- Truthiness of the `type` field of a series object, as tested by the
validator and by the final safety filter. -/
def seriesTypeTruthy (s : SeriesRec) : Bool :=
  match s.stype with
  | some t => !(t == "")
  | none => false

/-- The double-check branch of the sanitizer: reset a falsy type tag to bar
(dead after the filter, kept faithfully). -/
def seriesFixType (s1 : SeriesRec) : SeriesRec :=
  if !(seriesTypeTruthy s1) then { s1 with stype := some "bar" } else s1

/-- The sanitizing map of `validateAndSanitizeSeries`: keeps every field,
replaces an absent data payload with an empty array, then applies the
double-check branch. -/
def sanitizeSeriesEntry (s : SeriesRec) : SeriesRec :=
  seriesFixType { s with data := some (match s.data with | some d => d | none => .arr []) }

/-- Model of `validateAndSanitizeSeries`: drop entries without a truthy
string type tag, then sanitize the survivors.  The not-an-array guard and
the per-index warnings are not observable in the typed model. -/
def validateAndSanitizeSeries (series : List SeriesRec) : List SeriesRec :=
  (series.filter (fun s => seriesTypeTruthy s)).map sanitizeSeriesEntry

/-- The fixed placeholder substituted when every series was filtered out. -/
def noDataFallbackSeries : SeriesRec :=
  { stype := some "bar"
    data := some (.arr [DataValue.num (.fin (Frac.ofInt 0))])
    name := some "No Data" }

/-- The validation tail of `createLocalEChartsOption`: sanitize, apply the
final safety filter, and substitute the fixed placeholder when nothing
remains.  In the typed model the series field is always an array, so the
no-series-array branch of the source cannot fire. -/
def finalizeSeries (series : List SeriesRec) : List SeriesRec × List LogMsg :=
  if ((validateAndSanitizeSeries series).filter (fun s => seriesTypeTruthy s)).length == 0
  then ([noDataFallbackSeries], [.allSeriesFilteredWarn])
  else ((validateAndSanitizeSeries series).filter (fun s => seriesTypeTruthy s), [])

/-- Model of `createBarChart`; throws when neither axis column resolves to a
column of the table. -/
def createBarChart (baseConfig : EChartsOption) (data : ParsedData)
    (suggestion : ChartSuggestion) (colors : List String) : Except String EChartsOption :=
  let xAxisColumn := jsOrStrOpt suggestion.xAxis data.summary.stringColumns.head?
  let yAxisColumn := jsOrStrOpt (suggestion.yAxis.bind List.head?) data.summary.numericColumns.head?
  let xAxisIndex := findColIndex data.columns xAxisColumn
  let yAxisIndex := findColIndex data.columns yAxisColumn
  if xAxisIndex == -1 || yAxisIndex == -1 then
    .error "Cannot find specified columns for chart"
  else
    .ok { baseConfig with
          color := some colors
          xAxis := some (.category (data.rows.map (fun row => rowGet row xAxisIndex)))
          yAxis := some (.value none)
          series := [{ stype := some "bar"
                       name := yAxisColumn
                       data := some (.arr (data.rows.map (fun row => rowGet row yAxisIndex))) }] }

/-- Model of `createLineChart` (never throws; unresolved columns index as
-1 and produce undefined cells). -/
def createLineChart (baseConfig : EChartsOption) (data : ParsedData)
    (suggestion : ChartSuggestion) (colors : List String) : Except String EChartsOption :=
  let xAxisColumn :=
    jsOrStrOpt suggestion.xAxis
      (jsOrStrOpt data.summary.dateColumns.head? data.summary.stringColumns.head?)
  let yAxisColumn := jsOrStrOpt (suggestion.yAxis.bind List.head?) data.summary.numericColumns.head?
  let xAxisIndex := findColIndex data.columns xAxisColumn
  let yAxisIndex := findColIndex data.columns yAxisColumn
  .ok { baseConfig with
        color := some colors
        xAxis := some (.category (data.rows.map (fun row => rowGet row xAxisIndex)))
        yAxis := some (.value none)
        series := [{ stype := some "line"
                     name := yAxisColumn
                     data := some (.arr (data.rows.map (fun row => rowGet row yAxisIndex)))
                     smooth := some true
                     areaOpacity := some ⟨1, 10⟩ }] }

/-- Model of `createPieChart`. -/
def createPieChart (baseConfig : EChartsOption) (data : ParsedData)
    (suggestion : ChartSuggestion) (colors : List String) : Except String EChartsOption :=
  let categoryColumn := jsOrStrOpt suggestion.seriesCol data.summary.stringColumns.head?
  let valueColumn := jsOrStrOpt (suggestion.yAxis.bind List.head?) data.summary.numericColumns.head?
  let categoryIndex := findColIndex data.columns categoryColumn
  let valueIndex := findColIndex data.columns valueColumn
  let pieData := data.rows.map (fun row => (rowGet row categoryIndex, rowGet row valueIndex))
  .ok { baseConfig with
        color := some colors
        tooltip := .itemPieFormatter
        legend := some true
        series := [{ stype := some "pie"
                     name := categoryColumn
                     data := some (.nameValueRaw pieData) }] }

/-- Model of `createScatterChart`. -/
def createScatterChart (baseConfig : EChartsOption) (data : ParsedData)
    (suggestion : ChartSuggestion) (colors : List String) : Except String EChartsOption :=
  let xAxisColumn := jsOrStrOpt suggestion.xAxis data.summary.numericColumns.head?
  let yAxisColumn := jsOrStrOpt (suggestion.yAxis.bind List.head?) data.summary.numericColumns[1]?
  let xAxisIndex := findColIndex data.columns xAxisColumn
  let yAxisIndex := findColIndex data.columns yAxisColumn
  let scatterData := data.rows.map (fun row => (rowGet row xAxisIndex, rowGet row yAxisIndex))
  .ok { baseConfig with
        color := some colors
        xAxis := some (.value xAxisColumn)
        yAxis := some (.value yAxisColumn)
        series := [{ stype := some "scatter"
                     name := some (strOfOptJs xAxisColumn ++ " vs " ++ strOfOptJs yAxisColumn)
                     data := some (.pairsXY scatterData) }] }

/-- Model of `createAreaChart`: a line-type series with the heavier area
styling (opacity 0.6). -/
def createAreaChart (baseConfig : EChartsOption) (data : ParsedData)
    (suggestion : ChartSuggestion) (colors : List String) : Except String EChartsOption :=
  let xAxisColumn :=
    jsOrStrOpt suggestion.xAxis
      (jsOrStrOpt data.summary.dateColumns.head? data.summary.stringColumns.head?)
  let yAxisColumn := jsOrStrOpt (suggestion.yAxis.bind List.head?) data.summary.numericColumns.head?
  let xAxisIndex := findColIndex data.columns xAxisColumn
  let yAxisIndex := findColIndex data.columns yAxisColumn
  .ok { baseConfig with
        color := some colors
        xAxis := some (.category (data.rows.map (fun row => rowGet row xAxisIndex)))
        yAxis := some (.value none)
        series := [{ stype := some "line"
                     name := yAxisColumn
                     data := some (.arr (data.rows.map (fun row => rowGet row yAxisIndex)))
                     smooth := some true
                     areaOpacity := some ⟨6, 10⟩ }] }

/-- Model of `createRadarChart`, including its no-numeric-columns placeholder
branch and the defensive indicator-max computation. -/
def createRadarChart (baseConfig : EChartsOption) (data : ParsedData)
    (_suggestion : ChartSuggestion) (colors : List String) : Except String EChartsOption :=
  let numericColumns := data.summary.numericColumns.take 6
  if numericColumns.length == 0 then
    .ok { baseConfig with
          color := some colors
          series := [{ stype := some "bar", data := some (.arr [DataValue.num (.fin (Frac.ofInt 0))]) }]
          xAxis := some (.category [DataValue.str "No Data"])
          yAxis := some (.value none) }
  else
    let categoryColumn := data.summary.stringColumns.head?
    let categoryIndex := findColIndex data.columns categoryColumn
    let indicator := numericColumns.map (fun col =>
      let colIndex := findColIndexBy data.columns (fun c => c.name == col)
      let values := (data.rows.map (fun row =>
        jsNumOr (rowGet row colIndex).toNum (.fin (Frac.ofInt 0)))).filter
          (fun val => !val.isNaNb && val.isFiniteb)
      let maxValue := if values.length > 0 then jsMaxList values else .fin (Frac.ofInt 100)
      (col, jsNumOr (maxValue.mulJ (.fin ⟨12, 10⟩)) (.fin (Frac.ofInt 100))))
    let seriesData := (data.rows.take 5).enum.map (fun p =>
      let index := p.1
      let row := p.2
      let values := numericColumns.map (fun col =>
        let colIndex := findColIndexBy data.columns (fun c => c.name == col)
        let value := jsNumOr (rowGet row colIndex).toNum (.fin (Frac.ofInt 0))
        if value.isNaNb || !value.isFiniteb then .fin (Frac.ofInt 0) else value)
      (values,
       if decide (0 ≤ categoryIndex) && !(rowGet row categoryIndex == DataValue.undefV)
       then (rowGet row categoryIndex).toStr
       else "Item " ++ toString (index + 1)))
    .ok { baseConfig with
          color := some colors
          radar := some { indicator := indicator }
          series := validateAndSanitizeSeries
            [{ stype := some "radar", data := some (.radarD seriesData), areaOpacity := some ⟨3, 10⟩ }] }

/-- Model of `createHeatmapChart`, with its missing-columns placeholder
branch; the random branch of the cell value fires only when the value column
does not resolve. -/
def createHeatmapChart (baseConfig : EChartsOption) (data : ParsedData)
    (suggestion : ChartSuggestion) (colors : List String) (rng : Nat → Frac) :
    Except String EChartsOption :=
  let xColumn := jsOrStrOpt suggestion.xAxis data.summary.stringColumns.head?
  let yColumn := jsOrStrOpt data.summary.stringColumns[1]? data.summary.stringColumns.head?
  let valueColumn := jsOrStrOpt (suggestion.yAxis.bind List.head?) data.summary.numericColumns.head?
  if !(strTruthyOpt xColumn) || !(strTruthyOpt valueColumn) then
    .ok { baseConfig with
          color := some colors
          series := [{ stype := some "bar", data := some (.arr [DataValue.num (.fin (Frac.ofInt 0))]) }]
          xAxis := some (.category [DataValue.str "No Data"])
          yAxis := some (.value none) }
  else
    let xIndex := findColIndex data.columns xColumn
    let yIndex := findColIndex data.columns yColumn
    let valueIndex := findColIndex data.columns valueColumn
    let heatmapData := data.rows.enum.map (fun p =>
      let i := p.1
      let row := p.2
      let xValue := if 0 ≤ xIndex then (rowGet row xIndex).toStr else "X" ++ toString i
      let yValue := if 0 ≤ yIndex then (rowGet row yIndex).toStr else "Y" ++ toString i
      let value :=
        if 0 ≤ valueIndex then jsNumOr (rowGet row valueIndex).toNum (.fin (Frac.ofInt 0))
        else JsNum.mulJ (.fin (rng i)) (.fin (Frac.ofInt 100))
      (xValue, yValue, if value.isNaNb || !value.isFiniteb then JsNum.fin (Frac.ofInt 0) else value))
    let values := (heatmapData.map (fun d => d.2.2)).filter (fun v => !v.isNaNb && v.isFiniteb)
    let maxValue := if values.length > 0 then jsMaxList values else .fin (Frac.ofInt 100)
    .ok { baseConfig with
          color := some colors
          visualMap := some { minV := .fin (Frac.ofInt 0), maxV := maxValue }
          xAxis := some (.category ((heatmapData.map (fun d => d.1)).eraseDups.map DataValue.str))
          yAxis := some (.category ((heatmapData.map (fun d => d.2.1)).eraseDups.map DataValue.str))
          series := [{ stype := some "heatmap", data := some (.heatD heatmapData) }] }

/-- Sort key of the funnel data comparator `(a, b) => b.value - a.value`:
whether `x` may stand before `y` (difference not positive); a NaN difference
keeps the prior order. -/
def jsSortLeB (x y : JsNum) : Bool :=
  match x, y with
  | .fin p, .fin q => p.ble q
  | .nan, _ => true
  | _, .nan => true
  | .ninf, _ => true
  | _, .inf => true
  | .inf, _ => false
  | _, .ninf => false

/-- Descending-by-value preorder of the funnel sort. -/
def funnelGE (a b : String × JsNum) : Prop := jsSortLeB b.2 a.2 = true

instance : DecidableRel funnelGE :=
  fun a b => inferInstanceAs (Decidable (jsSortLeB b.2 a.2 = true))

/-- Model of `createFunnelChart`. -/
def createFunnelChart (baseConfig : EChartsOption) (data : ParsedData)
    (suggestion : ChartSuggestion) (colors : List String) : Except String EChartsOption :=
  let nameColumn := jsOrStrOpt suggestion.xAxis data.summary.stringColumns.head?
  let valueColumn := jsOrStrOpt (suggestion.yAxis.bind List.head?) data.summary.numericColumns.head?
  let nameIndex := findColIndex data.columns nameColumn
  let valueIndex := findColIndex data.columns valueColumn
  let funnelData := List.insertionSort funnelGE (data.rows.map (fun row =>
    ( if 0 ≤ nameIndex then (rowGet row nameIndex).toStr
      else "Stage " ++ toString (jsIndexOf data.rows row + 1),
      if 0 ≤ valueIndex then (rowGet row valueIndex).toNum else JsNum.fin (Frac.ofInt 0) )))
  .ok { baseConfig with
        color := some colors
        series := [{ stype := some "funnel"
                     minB := some (.fin (Frac.ofInt 0))
                     maxB := some (jsMaxList (funnelData.map (fun d => d.2)))
                     data := some (.funnelD funnelData) }] }

/-- Model of `createGaugeChart`: note that the value list is built without
NaN coercion or finiteness filtering, and the scale maximum and the average
are computed directly from it. -/
def createGaugeChart (baseConfig : EChartsOption) (data : ParsedData)
    (suggestion : ChartSuggestion) (colors : List String) : Except String EChartsOption :=
  let valueColumn := jsOrStrOpt (suggestion.yAxis.bind List.head?) data.summary.numericColumns.head?
  let valueIndex := findColIndex data.columns valueColumn
  let values := data.rows.map (fun row =>
    if 0 ≤ valueIndex then (rowGet row valueIndex).toNum else JsNum.fin (Frac.ofInt 0))
  let maxValue := jsMaxList values
  let avgValue := (values.foldl JsNum.addJ (.fin (Frac.ofInt 0))).divJ
    (.fin (Frac.ofInt (values.length : Int)))
  .ok { baseConfig with
        color := some colors
        series := [{ stype := some "gauge"
                     minB := some (.fin (Frac.ofInt 0))
                     maxB := some (maxValue.mulJ (.fin ⟨12, 10⟩))
                     data := some (.gaugeD [(avgValue, valueColumn)]) }] }

/-- Model of `createTreemapChart`; the random branch of the value fires only
when the value column does not resolve. -/
def createTreemapChart (baseConfig : EChartsOption) (data : ParsedData)
    (suggestion : ChartSuggestion) (colors : List String) (rng : Nat → Frac) :
    Except String EChartsOption :=
  let nameColumn := jsOrStrOpt suggestion.xAxis data.summary.stringColumns.head?
  let valueColumn := jsOrStrOpt (suggestion.yAxis.bind List.head?) data.summary.numericColumns.head?
  let nameIndex := findColIndex data.columns nameColumn
  let valueIndex := findColIndex data.columns valueColumn
  let treemapData := data.rows.enum.map (fun p =>
    let i := p.1
    let row := p.2
    ( if 0 ≤ nameIndex then (rowGet row nameIndex).toStr
      else "Item " ++ toString (jsIndexOf data.rows row + 1),
      if 0 ≤ valueIndex then (rowGet row valueIndex).toNum
      else JsNum.mulJ (.fin (rng i)) (.fin (Frac.ofInt 100)) ))
  .ok { baseConfig with
        color := some colors
        series := [{ stype := some "treemap", data := some (.treemapD treemapData) }] }

/-- Model of `createSunburstChart`: one root node whose children come from
the first ten rows. -/
def createSunburstChart (baseConfig : EChartsOption) (data : ParsedData)
    (suggestion : ChartSuggestion) (colors : List String) (rng : Nat → Frac) :
    Except String EChartsOption :=
  let nameColumn := jsOrStrOpt suggestion.xAxis data.summary.stringColumns.head?
  let valueColumn := jsOrStrOpt (suggestion.yAxis.bind List.head?) data.summary.numericColumns.head?
  let nameIndex := findColIndex data.columns nameColumn
  let valueIndex := findColIndex data.columns valueColumn
  let children := (data.rows.take 10).enum.map (fun p =>
    let i := p.1
    let row := p.2
    ( if 0 ≤ nameIndex then (rowGet row nameIndex).toStr
      else "Item " ++ toString (jsIndexOf data.rows row + 1),
      if 0 ≤ valueIndex then (rowGet row valueIndex).toNum
      else JsNum.mulJ (.fin (rng i)) (.fin (Frac.ofInt 100)) ))
  .ok { baseConfig with
        color := some colors
        series := [{ stype := some "sunburst", data := some (.sunburstD "Root" children) }] }

/-- Model of `createParallelChart`, including its no-numeric-columns
placeholder branch and the defensive axis min/max computation. -/
def createParallelChart (baseConfig : EChartsOption) (data : ParsedData)
    (_suggestion : ChartSuggestion) (colors : List String) : Except String EChartsOption :=
  let numericColumns := data.summary.numericColumns.take 6
  if numericColumns.length == 0 then
    .ok { baseConfig with
          color := some colors
          series := [{ stype := some "bar", data := some (.arr [DataValue.num (.fin (Frac.ofInt 0))]) }]
          xAxis := some (.category [DataValue.str "No Data"])
          yAxis := some (.value none) }
  else
    let parallelAxis := numericColumns.enum.map (fun p =>
      let index := p.1
      let col := p.2
      let colIndex := findColIndexBy data.columns (fun c => c.name == col)
      let values := (data.rows.map (fun row =>
        jsNumOr (rowGet row colIndex).toNum (.fin (Frac.ofInt 0)))).filter
          (fun val => !val.isNaNb && val.isFiniteb)
      { dim := index
        name := col
        minV := if values.length > 0 then jsMinList values else .fin (Frac.ofInt 0)
        maxV := if values.length > 0 then jsMaxList values else .fin (Frac.ofInt 100)
        : ParallelAxisBlock })
    let parallelData := (data.rows.take 50).map (fun row =>
      numericColumns.map (fun col =>
        let colIndex := findColIndexBy data.columns (fun c => c.name == col)
        let value := jsNumOr (rowGet row colIndex).toNum (.fin (Frac.ofInt 0))
        if value.isNaNb || !value.isFiniteb then JsNum.fin (Frac.ofInt 0) else value))
    .ok { baseConfig with
          color := some colors
          parallelAxis := some parallelAxis
          parallel := some true
          series := [{ stype := some "parallel", data := some (.parallelD parallelData) }] }

/-- Model of `createSankeyChart`: warn and delegate to the bar builder. -/
def createSankeyChart (baseConfig : EChartsOption) (data : ParsedData)
    (suggestion : ChartSuggestion) (colors : List String) :
    List LogMsg × Except String EChartsOption :=
  ([.sankeyFallbackWarn], createBarChart baseConfig data suggestion colors)

/-- Model of `createGraphChart`: warn and delegate to the scatter builder. -/
def createGraphChart (baseConfig : EChartsOption) (data : ParsedData)
    (suggestion : ChartSuggestion) (colors : List String) :
    List LogMsg × Except String EChartsOption :=
  ([.graphFallbackWarn], createScatterChart baseConfig data suggestion colors)

/-- Model of `createBoxplotChart`: warn and delegate to the bar builder. -/
def createBoxplotChart (baseConfig : EChartsOption) (data : ParsedData)
    (suggestion : ChartSuggestion) (colors : List String) :
    List LogMsg × Except String EChartsOption :=
  ([.boxplotFallbackWarn], createBarChart baseConfig data suggestion colors)

/-- Model of `createCandlestickChart`: warn and delegate to the line
builder. -/
def createCandlestickChart (baseConfig : EChartsOption) (data : ParsedData)
    (suggestion : ChartSuggestion) (colors : List String) :
    List LogMsg × Except String EChartsOption :=
  ([.candlestickFallbackWarn], createLineChart baseConfig data suggestion colors)

/-- Model of `createThemeRiverChart`: warn and delegate to the area
builder. -/
def createThemeRiverChart (baseConfig : EChartsOption) (data : ParsedData)
    (suggestion : ChartSuggestion) (colors : List String) :
    List LogMsg × Except String EChartsOption :=
  ([.themeRiverFallbackWarn], createAreaChart baseConfig data suggestion colors)

/-- The builder dispatch switch of `createLocalEChartsOption`; the only type
without a case, tree, takes the warn-and-bar default branch. -/
def buildChartByType (t : ChartType) (baseConfig : EChartsOption) (data : ParsedData)
    (suggestion : ChartSuggestion) (colors : List String) (rng : Nat → Frac) :
    List LogMsg × Except String EChartsOption :=
  match t with
  | .bar => ([], createBarChart baseConfig data suggestion colors)
  | .line => ([], createLineChart baseConfig data suggestion colors)
  | .pie => ([], createPieChart baseConfig data suggestion colors)
  | .scatter => ([], createScatterChart baseConfig data suggestion colors)
  | .area => ([], createAreaChart baseConfig data suggestion colors)
  | .radar => ([], createRadarChart baseConfig data suggestion colors)
  | .heatmap => ([], createHeatmapChart baseConfig data suggestion colors rng)
  | .funnel => ([], createFunnelChart baseConfig data suggestion colors)
  | .gauge => ([], createGaugeChart baseConfig data suggestion colors)
  | .treemap => ([], createTreemapChart baseConfig data suggestion colors rng)
  | .sunburst => ([], createSunburstChart baseConfig data suggestion colors rng)
  | .parallel => ([], createParallelChart baseConfig data suggestion colors)
  | .sankey => createSankeyChart baseConfig data suggestion colors
  | .graph => createGraphChart baseConfig data suggestion colors
  | .boxplot => createBoxplotChart baseConfig data suggestion colors
  | .candlestick => createCandlestickChart baseConfig data suggestion colors
  | .themeRiver => createThemeRiverChart baseConfig data suggestion colors
  | .tree => ([.chartTypeNotImplemented .tree], createBarChart baseConfig data suggestion colors)

/-- The tail of `createLocalEChartsOption` after the builder dispatch: on an
exception, retry with the bar builder outside any handler (so a second
failure propagates to the caller); on success, validate the series array. -/
def synthFinish (t : ChartType) (baseConfig : EChartsOption) (data : ParsedData)
    (suggestion : ChartSuggestion) (built : List LogMsg × Except String EChartsOption) :
    List LogMsg × Except String EChartsOption :=
  match built.2 with
  | .ok chartConfig =>
      (built.1 ++ (finalizeSeries chartConfig.series).2,
       .ok { chartConfig with series := (finalizeSeries chartConfig.series).1 })
  | .error _e =>
      match createBarChart baseConfig data suggestion colorPalette with
      | .ok chartConfig =>
          (built.1 ++ [.errorCreatingChart t, .fallingBackToBar] ++ (finalizeSeries chartConfig.series).2,
           .ok { chartConfig with series := (finalizeSeries chartConfig.series).1 })
      | .error e2 => (built.1 ++ [.errorCreatingChart t, .fallingBackToBar], .error e2)

/-- The base configuration built at the top of `createLocalEChartsOption`:
centered title (`title || suggestion.title`), the styled axis-trigger
tooltip, and an empty series list. -/
def baseRecOf (suggestion : ChartSuggestion) (title : Option String) : EChartsOption :=
  { title := { text := jsOrStr title suggestion.title, left := "center" }
    tooltip := .axisStyled
    series := [] }

/-- Model of `createLocalEChartsOption`: build the base configuration,
dispatch on the suggestion type, then apply the catch-and-validate tail. -/
def createLocalEChartsOption (suggestion : ChartSuggestion) (data : ParsedData)
    (title : Option String) (rng : Nat → Frac) :
    List LogMsg × Except String EChartsOption :=
  synthFinish suggestion.ctype (baseRecOf suggestion title) data suggestion
    (buildChartByType suggestion.ctype (baseRecOf suggestion title) data suggestion colorPalette rng)

/-- Shape of the `series` field of a dynamically-typed external
configuration: an array of series objects, or some non-array value. -/
inductive SeriesFieldVal where
  | arrV (l : List SeriesRec)
  | notArray
deriving DecidableEq, Repr

/-- A dynamically-typed external chart configuration as far as the shape
check observes it: presence of the title and tooltip fields, and the series
field (absent, non-array, or an array). -/
structure MCPChartConfig where
  titlePresent : Bool
  tooltipPresent : Bool
  seriesField : Option SeriesFieldVal := none
deriving DecidableEq, Repr

/-- Model of `isValidEChartsOption`: requires the title, tooltip and series
fields to be present and series to be an array; array emptiness is not
examined. -/
def isValidEChartsOption (config : MCPChartConfig) : Bool :=
  config.titlePresent && config.tooltipPresent &&
    (match config.seriesField with
     | some (.arrV _) => true
     | some .notArray => false
     | none => false)

/-- Model of the client-internal `generateFallbackConfig`: title, tooltip
and palette always present; a series array (rows projected on column 1) is
added only for bar suggestions. -/
def generateFallbackConfig (suggestion : ChartSuggestion) (data : ParsedData) : MCPChartConfig :=
  { titlePresent := true
    tooltipPresent := true
    seriesField :=
      if suggestion.ctype == ChartType.bar
      then some (.arrV [{ stype := some "bar"
                          data := some (.arr (data.rows.map (fun row => rowGet row 1))) }])
      else none }

/-- Model of the client method `generateEChartsConfig`: whether connected or
not, the simulated generate-chart response carries no chartConfig field, so
both paths return the internal fallback configuration. -/
def generateEChartsConfigM (_st : MCPServiceState) (suggestion : ChartSuggestion)
    (data : ParsedData) : MCPChartConfig :=
  generateFallbackConfig suggestion data

deriving instance DecidableEq for Except

/-- Result of the top-level `createEChartsOption`: either the external
configuration was accepted and returned, or the local synthesizer ran. -/
inductive CreateOptionResult where
  | external (config : MCPChartConfig)
  | localCfg (logs : List LogMsg) (r : Except String EChartsOption)
deriving DecidableEq, Repr

/-- Model of `createEChartsOption`, with the outcome of the awaited
`generateEChartsConfig` call injected as `mcpResult` (an exception, or a
possibly-null configuration value): the external configuration is returned
exactly when the suggestion is tagged aiEnhanced, the value is non-null and
the shape check passes; otherwise the local path runs. -/
def createEChartsOption (suggestion : ChartSuggestion) (data : ParsedData)
    (title : Option String) (mcpResult : Except String (Option MCPChartConfig))
    (rng : Nat → Frac) : CreateOptionResult × List LogMsg :=
  if suggestion.aiEnhanced == some true then
    match mcpResult with
    | .ok (some cfg) =>
        if isValidEChartsOption cfg then (.external cfg, [.usingMcpEnhancedConfig])
        else
          (.localCfg (createLocalEChartsOption suggestion data title rng).1
             (createLocalEChartsOption suggestion data title rng).2,
           [.usingLocalChartConfig])
    | .ok none =>
        (.localCfg (createLocalEChartsOption suggestion data title rng).1
           (createLocalEChartsOption suggestion data title rng).2,
         [.usingLocalChartConfig])
    | .error _ =>
        (.localCfg (createLocalEChartsOption suggestion data title rng).1
           (createLocalEChartsOption suggestion data title rng).2,
         [.usingLocalChartConfig])
  else
    (.localCfg (createLocalEChartsOption suggestion data title rng).1
       (createLocalEChartsOption suggestion data title rng).2,
     [.usingLocalChartConfig])

/-! Concrete fixtures used by witnesses and counterexamples. -/

/-- Scenario A table: one string column and one numeric column. -/
def tableA : ParsedData :=
  { columns := [⟨"Product", .string, [.str "A", .str "B"]⟩,
                ⟨"Sales", .number, [.num (.fin ⟨10, 1⟩), .num (.fin ⟨20, 1⟩)]⟩]
    rows := [[.str "A", .num (.fin ⟨10, 1⟩)], [.str "B", .num (.fin ⟨20, 1⟩)]]
    summary := ⟨2, 2, ["Sales"], ["Product"], []⟩ }

/-- A table with one string column and two numeric columns. -/
def tableTwoNum : ParsedData :=
  { columns := [⟨"Cat", .string, [.str "a", .str "b"]⟩,
                ⟨"N1", .number, [.num (.fin ⟨1, 1⟩), .num (.fin ⟨2, 1⟩)]⟩,
                ⟨"N2", .number, [.num (.fin ⟨3, 1⟩), .num (.fin ⟨4, 1⟩)]⟩]
    rows := [[.str "a", .num (.fin ⟨1, 1⟩), .num (.fin ⟨3, 1⟩)],
             [.str "b", .num (.fin ⟨2, 1⟩), .num (.fin ⟨4, 1⟩)]]
    summary := ⟨2, 3, ["N1", "N2"], ["Cat"], []⟩ }

/-- The degenerate table with no columns and no rows. -/
def tableEmptyT : ParsedData := ⟨[], [], ⟨0, 0, [], [], []⟩⟩

/-- A table with only a string column. -/
def tableStrOnly : ParsedData :=
  ⟨[⟨"Name", .string, [.str "x"]⟩], [[.str "x"]], ⟨1, 1, [], ["Name"], []⟩⟩

/-- A table with only a date column. -/
def tableDateOnly : ParsedData :=
  ⟨[⟨"When", .date, [.str "2024-01-01"]⟩], [[.str "2024-01-01"]],
   ⟨1, 1, [], [], ["When"]⟩⟩

/-- A table whose numeric column holds a non-numeric text cell. -/
def tableGaugeBad : ParsedData :=
  ⟨[⟨"V", .number, [.str "abc"]⟩], [[.str "abc"]], ⟨1, 1, ["V"], [], []⟩⟩

/-- A table whose numeric column holds an infinite value and a finite one. -/
def tableInfCell : ParsedData :=
  ⟨[⟨"P", .number, [.num .inf, .num (.fin ⟨5, 1⟩)]⟩],
   [[.num .inf], [.num (.fin ⟨5, 1⟩)]], ⟨2, 1, ["P"], [], []⟩⟩

/-- A minimal bar suggestion. -/
def barSuggestion : ChartSuggestion :=
  { ctype := .bar, title := "Bar", description := "", confidence := 85, reasoning := "" }

/-- A bar suggestion tagged as aiEnhanced. -/
def aiBarSuggestion : ChartSuggestion :=
  { ctype := .bar, title := "Bar", description := "", confidence := 85, reasoning := ""
    aiEnhanced := some true }

/-- A minimal treemap suggestion. -/
def treemapSuggestion : ChartSuggestion :=
  { ctype := .treemap, title := "Treemap", description := "", confidence := 50, reasoning := "" }

/-- A minimal themeRiver suggestion. -/
def themeRiverSuggestion : ChartSuggestion :=
  { ctype := .themeRiver, title := "TR", description := "", confidence := 50, reasoning := "" }

/-- A minimal sankey suggestion. -/
def sankeySuggestion : ChartSuggestion :=
  { ctype := .sankey, title := "SK", description := "", confidence := 50, reasoning := "" }

/-- A minimal gauge suggestion. -/
def gaugeSuggestion : ChartSuggestion :=
  { ctype := .gauge, title := "G", description := "", confidence := 50, reasoning := "" }

/-- A minimal parallel suggestion. -/
def parallelSuggestion : ChartSuggestion :=
  { ctype := .parallel, title := "P", description := "", confidence := 50, reasoning := "" }

/-- A minimal radar suggestion. -/
def radarSuggestion : ChartSuggestion :=
  { ctype := .radar, title := "R", description := "", confidence := 50, reasoning := "" }

/-- A base configuration as `createLocalEChartsOption` builds it. -/
def baseCfg0 : EChartsOption :=
  { title := { text := "t", left := "center" }, tooltip := .axisStyled, series := [] }

/-- A disconnected client state (enhancement forced unavailable). -/
def stDisconnected : MCPServiceState := { config := { enabled := false }, isConnected := false }

/-- A deterministic random stream. -/
def rngHalf : Nat → Frac := fun _ => ⟨1, 2⟩

/-- A second, different random stream. -/
def rngQuarter : Nat → Frac := fun _ => ⟨1, 4⟩

/-- An external configuration with title, tooltip, and an empty series
array. -/
def emptySeriesConfig : MCPChartConfig :=
  { titlePresent := true, tooltipPresent := true, seriesField := some (.arrV []) }

/-! Lemmas about the series validator. -/

/-- A truthy series type tag is exactly a present, non-empty string. -/
lemma seriesTypeTruthy_iff (s : SeriesRec) :
    seriesTypeTruthy s = true ↔ ∃ t, s.stype = some t ∧ t ≠ "" := by
  unfold seriesTypeTruthy
  cases h : s.stype with
  | none => simp
  | some t => simp

/-- The truthiness of the type tag only depends on the type tag. -/
lemma seriesTypeTruthy_congr (a b : SeriesRec) (h : a.stype = b.stype) :
    seriesTypeTruthy a = seriesTypeTruthy b := by
  unfold seriesTypeTruthy
  rw [h]

/-- Sanitizing an entry with a truthy type keeps the type tag and makes the
data payload present. -/
lemma sanitize_of_truthy (s : SeriesRec) (h : seriesTypeTruthy s = true) :
    (sanitizeSeriesEntry s).stype = s.stype ∧ (sanitizeSeriesEntry s).data.isSome = true := by
  unfold sanitizeSeriesEntry seriesFixType
  have h1 : seriesTypeTruthy
      { s with data := some (match s.data with | some d => d | none => .arr []) } =
      seriesTypeTruthy s := rfl
  rw [h1, h]
  simp

/-- Every element surviving `validateAndSanitizeSeries` has a truthy type
tag and a present data payload. -/
lemma mem_validateAndSanitizeSeries (l : List SeriesRec) (s : SeriesRec)
    (hs : s ∈ validateAndSanitizeSeries l) :
    seriesTypeTruthy s = true ∧ s.data.isSome = true := by
  unfold validateAndSanitizeSeries at hs
  rcases List.mem_map.mp hs with ⟨t, ht, rfl⟩
  have htt : seriesTypeTruthy t = true := by
    have := List.mem_filter.mp ht
    exact this.2
  have hc := sanitize_of_truthy t htt
  refine ⟨?_, hc.2⟩
  rw [seriesTypeTruthy_congr _ t hc.1]
  exact htt

/-- The finalized series list is never empty and every element has a truthy
type and a present data payload. -/
lemma finalizeSeries_invariant (l : List SeriesRec) :
    1 ≤ (finalizeSeries l).1.length ∧
    ∀ s ∈ (finalizeSeries l).1, seriesTypeTruthy s = true ∧ s.data.isSome = true := by
  unfold finalizeSeries
  split
  · constructor
    · simp
    · intro s hs
      simp only [List.mem_singleton] at hs
      subst hs
      constructor <;> decide
  · rename_i hlen
    constructor
    · have hne : ((validateAndSanitizeSeries l).filter (fun s => seriesTypeTruthy s)).length ≠ 0 := by
        intro hz
        apply hlen
        simp [hz]
      exact Nat.pos_of_ne_zero hne
    · intro s hs
      have hm := List.mem_filter.mp hs
      exact mem_validateAndSanitizeSeries l s hm.1

/-- Every configuration that `synthFinish` returns successfully carries a
finalized series list. -/
lemma synthFinish_ok_series (t : ChartType) (b : EChartsOption) (d : ParsedData)
    (sg : ChartSuggestion) (built : List LogMsg × Except String EChartsOption)
    (cfg : EChartsOption) (h : (synthFinish t b d sg built).2 = .ok cfg) :
    ∃ cc : EChartsOption, cfg = { cc with series := (finalizeSeries cc.series).1 } := by
  unfold synthFinish at h
  split at h
  · rename_i cc _
    dsimp only at h
    injection h with h2
    exact ⟨cc, h2.symm⟩
  · split at h
    · rename_i cc _
      dsimp only at h
      injection h with h2
      exact ⟨cc, h2.symm⟩
    · dsimp only at h
      exact Except.noConfusion h

/-- Converting a successful `Except` to an option and back. -/
lemma except_ok_of_toOption {α β : Type} (x : Except α β) (c : β)
    (h : x.toOption = some c) : x = .ok c := by
  cases x with
  | ok a =>
      simp [Except.toOption] at h
      rw [h]
  | error e => simp [Except.toOption] at h

/-- C1: for every RenderConfig the local synthesizer produces, the validated
series array has length at least one, every element carries a present
non-empty type string and a present data payload, and when filtering removes
every series the fixed zero-valued placeholder bar series is substituted, so
an empty series list is never the final output. -/
theorem claim_validator_series_invariant :
    (∀ (suggestion : ChartSuggestion) (data : ParsedData) (title : Option String)
       (rng : Nat → Frac) (cfg : EChartsOption),
       (createLocalEChartsOption suggestion data title rng).2 = .ok cfg →
         1 ≤ cfg.series.length ∧
         ∀ s ∈ cfg.series, (∃ t, s.stype = some t ∧ t ≠ "") ∧ s.data.isSome = true) ∧
    (finalizeSeries []).1 = [noDataFallbackSeries] := by
  constructor
  · intro suggestion data title rng cfg h
    simp only [createLocalEChartsOption] at h
    rcases synthFinish_ok_series _ _ _ _ _ _ h with ⟨cc, rfl⟩
    have hs : ({ cc with series := (finalizeSeries cc.series).1 } : EChartsOption).series
        = (finalizeSeries cc.series).1 := rfl
    rw [hs]
    have hinv := finalizeSeries_invariant cc.series
    refine ⟨hinv.1, ?_⟩
    intro s hsm
    have h2 := hinv.2 s hsm
    exact ⟨(seriesTypeTruthy_iff s).mp h2.1, h2.2⟩
  · decide

/-- Witness for C1: the invariant holds on the concrete Scenario A table with
a bar suggestion. -/
theorem claim_validator_series_invariant_witness :
    ∃ cfg : EChartsOption,
      (createLocalEChartsOption barSuggestion tableA none rngHalf).2 = .ok cfg ∧
      1 ≤ cfg.series.length ∧
      ∀ s ∈ cfg.series, (∃ t, s.stype = some t ∧ t ≠ "") ∧ s.data.isSome = true := by
  have hsome : (createLocalEChartsOption barSuggestion tableA none rngHalf).2.toOption.isSome
      = true := by decide
  rcases hv : (createLocalEChartsOption barSuggestion tableA none rngHalf).2.toOption with _ | cfg
  · rw [hv] at hsome
    simp at hsome
  · have hok := except_ok_of_toOption _ _ hv
    exact ⟨cfg, hok, claim_validator_series_invariant.1 barSuggestion tableA none rngHalf cfg hok⟩

/-- C2: contrary to the claim, the local synthesizer does raise to its
caller: with a bar suggestion on a table having no string and no numeric
columns, the bar builder throws, the catch-block fallback calls the same
builder again outside any handler, and the second exception propagates
instead of a placeholder configuration being returned. -/
theorem claim_synthesizer_throws_on_unresolvable_columns :
    (createLocalEChartsOption barSuggestion tableEmptyT none rngHalf).2
      = .error "Cannot find specified columns for chart" := by decide

/-! Membership through the stable sort. -/

/-- Sorting does not change membership. -/
lemma mem_sortByConfidenceDesc (s : ChartSuggestion) (l : List ChartSuggestion) :
    s ∈ sortByConfidenceDesc l ↔ s ∈ l :=
  (List.perm_insertionSort confGE l).mem_iff

/-- The bar rule fires whenever a string and a numeric column exist. -/
lemma localBarSugg_mem (data : ParsedData)
    (h : data.summary.stringColumns.length ≥ 1 ∧ data.summary.numericColumns.length ≥ 1) :
    localBarSugg data ∈ generateLocalSuggestions data := by
  unfold generateLocalSuggestions
  rw [mem_sortByConfidenceDesc]
  unfold localSuggestionCandidates
  simp [h.1, h.2]

/-- The pie rule fires whenever a string and a numeric column exist. -/
lemma localPieSugg_mem (data : ParsedData)
    (h : data.summary.stringColumns.length ≥ 1 ∧ data.summary.numericColumns.length ≥ 1) :
    localPieSugg data ∈ generateLocalSuggestions data := by
  unfold generateLocalSuggestions
  rw [mem_sortByConfidenceDesc]
  unfold localSuggestionCandidates
  simp [h.1, h.2]

/-- The scatter rule fires whenever two numeric columns exist. -/
lemma localScatterSugg_mem (data : ParsedData)
    (h : data.summary.numericColumns.length ≥ 2) :
    localScatterSugg data ∈ generateLocalSuggestions data := by
  unfold generateLocalSuggestions
  rw [mem_sortByConfidenceDesc]
  unfold localSuggestionCandidates
  simp [h]

/-- C3 counterexample: with the client forced unavailable, the suggestions
returned by the enhancement path on the Scenario A table are not set-equal
to the Local Suggestion Generator output (the fallback generator lacks the
pie rule and carries different texts), and the list ultimately returned to
the caller by generateChartSuggestions does contain entries tagged
aiEnhanced. -/
theorem claim_fallback_equivalence_counterexample :
    (¬ ((∀ s ∈ (generateEnhancedSuggestions stDisconnected tableA).1,
           s ∈ generateLocalSuggestions tableA) ∧
        (∀ s ∈ generateLocalSuggestions tableA,
           s ∈ (generateEnhancedSuggestions stDisconnected tableA).1))) ∧
    (∃ s ∈ (generateChartSuggestions stDisconnected tableA).1, s.aiEnhanced = some true) := by
  constructor
  · decide
  · decide

/-- C3 amended: when the client is not connected, generateEnhancedSuggestions
returns exactly the internal two-rule fallback list (bar 85, scatter 80,
sorted by confidence), whose entries are untagged and whose chart types all
occur among the Local Suggestion Generator output; the full local output is
not reproduced, and the caller-facing generateChartSuggestions subsequently
tags every entry of a nonempty returned list as aiEnhanced. -/
theorem claim_fallback_behavior_amended :
    ∀ (st : MCPServiceState) (data : ParsedData), st.isConnected = false →
      (generateEnhancedSuggestions st data).1 = generateFallbackSuggestions data ∧
      (∀ s ∈ generateFallbackSuggestions data, s.aiEnhanced = none) ∧
      (∀ s ∈ generateFallbackSuggestions data,
         ∃ t ∈ generateLocalSuggestions data, t.ctype = s.ctype) := by
  intro st data hst
  refine ⟨?_, ?_, ?_⟩
  · simp [generateEnhancedSuggestions, hst]
  · intro s hs
    rw [generateFallbackSuggestions, mem_sortByConfidenceDesc] at hs
    unfold fallbackCandidates at hs
    rcases List.mem_append.mp hs with hs | hs
    · split at hs
      · simp only [List.mem_singleton] at hs
        subst hs
        rfl
      · simp at hs
    · split at hs
      · simp only [List.mem_singleton] at hs
        subst hs
        rfl
      · simp at hs
  · intro s hs
    rw [generateFallbackSuggestions, mem_sortByConfidenceDesc] at hs
    unfold fallbackCandidates at hs
    rcases List.mem_append.mp hs with hs | hs
    · split at hs
      · rename_i hcond
        simp only [List.mem_singleton] at hs
        subst hs
        exact ⟨localBarSugg data, localBarSugg_mem data hcond, rfl⟩
      · simp at hs
    · split at hs
      · rename_i hcond
        simp only [List.mem_singleton] at hs
        subst hs
        exact ⟨localScatterSugg data, localScatterSugg_mem data hcond, rfl⟩
      · simp at hs

/-- Witness for the amended C3 on the concrete disconnected state and
Scenario A table. -/
theorem claim_fallback_behavior_amended_witness :
    (generateEnhancedSuggestions stDisconnected tableA).1 = generateFallbackSuggestions tableA ∧
    (∀ s ∈ generateFallbackSuggestions tableA, s.aiEnhanced = none) ∧
    (∀ s ∈ generateFallbackSuggestions tableA,
       ∃ t ∈ generateLocalSuggestions tableA, t.ctype = s.ctype) :=
  claim_fallback_behavior_amended stDisconnected tableA rfl

/-- C4: the Local Suggestion Generator matches the fixed rule table: with at
least one string and one numeric column the output contains a bar suggestion
(confidence 85, xAxis the first string column, yAxis the first numeric
column) and a pie suggestion (confidence 70, series the first string
column); with at least two numeric columns it contains a scatter suggestion
(confidence 80) whose xAxis and yAxis are the first two numeric column
names, distinct under the column-name uniqueness invariant of the Table; and
a table with no numeric and no date columns yields the empty list, never an
error. -/
theorem claim_local_rule_table :
    ∀ data : ParsedData,
      (data.summary.stringColumns.length ≥ 1 → data.summary.numericColumns.length ≥ 1 →
        (∃ s ∈ generateLocalSuggestions data,
          s.ctype = .bar ∧ s.confidence = 85 ∧
          s.xAxis = data.summary.stringColumns.head? ∧
          s.yAxis = data.summary.numericColumns.head?.map (fun c => [c])) ∧
        (∃ s ∈ generateLocalSuggestions data,
          s.ctype = .pie ∧ s.confidence = 70 ∧
          s.seriesCol = data.summary.stringColumns.head?)) ∧
      (data.summary.numericColumns.length ≥ 2 → data.summary.numericColumns.Nodup →
        ∃ s ∈ generateLocalSuggestions data,
          s.ctype = .scatter ∧ s.confidence = 80 ∧
          s.xAxis = data.summary.numericColumns[0]? ∧
          s.yAxis = (data.summary.numericColumns[1]?).map (fun c => [c]) ∧
          s.xAxis ≠ data.summary.numericColumns[1]?) ∧
      (data.summary.numericColumns = [] → data.summary.dateColumns = [] →
        generateLocalSuggestions data = []) := by
  intro data
  refine ⟨?_, ?_, ?_⟩
  · intro h1 h2
    constructor
    · exact ⟨localBarSugg data, localBarSugg_mem data ⟨h1, h2⟩, rfl, rfl, rfl, rfl⟩
    · exact ⟨localPieSugg data, localPieSugg_mem data ⟨h1, h2⟩, rfl, rfl, rfl⟩
  · intro h2 hnd
    refine ⟨localScatterSugg data, localScatterSugg_mem data h2, rfl, rfl, ?_, rfl, ?_⟩
    · cases hnc : data.summary.numericColumns with
      | nil => simp [hnc] at h2
      | cons a t => simp [localScatterSugg, hnc]
    · cases hnc : data.summary.numericColumns with
      | nil => simp [hnc] at h2
      | cons a t =>
        cases t with
        | nil => rw [hnc] at h2; simp at h2
        | cons b u =>
          rw [hnc] at hnd
          have hab : a ≠ b := by
            intro he
            subst he
            simp at hnd
          simp [localScatterSugg, hnc]
          exact hab
  · intro hn _hd
    unfold generateLocalSuggestions localSuggestionCandidates
    simp [hn, sortByConfidenceDesc, List.insertionSort]

/-- Witness for C4 on a table with one string and two distinct numeric
columns, and the empty-output part on a string-only table. -/
theorem claim_local_rule_table_witness :
    (∃ s ∈ generateLocalSuggestions tableTwoNum,
      s.ctype = .bar ∧ s.confidence = 85 ∧
      s.xAxis = tableTwoNum.summary.stringColumns.head? ∧
      s.yAxis = tableTwoNum.summary.numericColumns.head?.map (fun c => [c])) ∧
    (∃ s ∈ generateLocalSuggestions tableTwoNum,
      s.ctype = .scatter ∧ s.confidence = 80 ∧
      s.xAxis = tableTwoNum.summary.numericColumns[0]? ∧
      s.yAxis = (tableTwoNum.summary.numericColumns[1]?).map (fun c => [c]) ∧
      s.xAxis ≠ tableTwoNum.summary.numericColumns[1]?) ∧
    generateLocalSuggestions tableStrOnly = [] := by
  refine ⟨?_, ?_, ?_⟩
  · exact ((claim_local_rule_table tableTwoNum).1 (by decide) (by decide)).1
  · exact (claim_local_rule_table tableTwoNum).2.1 (by decide) (by decide)
  · exact (claim_local_rule_table tableStrOnly).2.2 rfl rfl

/-! Stability of the confidence sort. -/

/-- Inserting an element of different confidence leaves a confidence class
of the filter unchanged. -/
lemma filter_orderedInsert_of_ne (c : Int) (a : ChartSuggestion) (l : List ChartSuggestion)
    (h : a.confidence ≠ c) :
    (List.orderedInsert confGE a l).filter (fun s => s.confidence == c) =
    l.filter (fun s => s.confidence == c) := by
  induction l with
  | nil => simp [List.orderedInsert, h]
  | cons b t ih =>
    by_cases hr : confGE a b
    · simp only [List.orderedInsert, if_pos hr]
      simp [List.filter_cons, h]
    · simp only [List.orderedInsert, if_neg hr]
      simp [List.filter_cons, ih]

/-- Inserting an element of confidence `c` puts it before every current
element of its confidence class (the elements skipped have strictly larger
confidence). -/
lemma filter_orderedInsert_of_eq (c : Int) (a : ChartSuggestion) (l : List ChartSuggestion)
    (h : a.confidence = c) :
    (List.orderedInsert confGE a l).filter (fun s => s.confidence == c) =
    a :: l.filter (fun s => s.confidence == c) := by
  induction l with
  | nil => simp [List.orderedInsert, h]
  | cons b t ih =>
    by_cases hr : confGE a b
    · simp only [List.orderedInsert, if_pos hr]
      simp [List.filter_cons, h]
    · simp only [List.orderedInsert, if_neg hr]
      have hb : b.confidence ≠ c := by
        intro he
        apply hr
        unfold confGE
        rw [he, h]
      simp [List.filter_cons, hb, ih]

/-- The insertion sort by descending confidence is stable: it preserves each
confidence class of the filter. -/
lemma filter_insertionSort_conf (c : Int) (l : List ChartSuggestion) :
    (List.insertionSort confGE l).filter (fun s => s.confidence == c) =
    l.filter (fun s => s.confidence == c) := by
  induction l with
  | nil => simp
  | cons a t ih =>
    simp only [List.insertionSort]
    by_cases h : a.confidence = c
    · rw [filter_orderedInsert_of_eq c a _ h, ih]
      simp [List.filter_cons, h]
    · rw [filter_orderedInsert_of_ne c a _ h, ih]
      simp [List.filter_cons, h]

/-- C5 counterexample: on the connected enhancement path that the exported
singleton takes, generateChartSuggestions returns the processed mock
suggestions unsorted: on a table with one string and two numeric columns the
second entry has confidence 78 and the third 90, so an earlier entry has
strictly smaller confidence than a later one. -/
theorem claim_ranking_counterexample :
    ((generateChartSuggestions mcpEChartsService tableTwoNum).1[1]?).map
        (fun s => s.confidence) = some 78 ∧
    ((generateChartSuggestions mcpEChartsService tableTwoNum).1[2]?).map
        (fun s => s.confidence) = some 90 ∧
    (78 : Int) < 90 := by
  refine ⟨by decide, by decide, by decide⟩

/-- C5 amended: the ranking property holds of the local generator (and its
sort): its output is pairwise descending in confidence, is a permutation of
the generated rule candidates (nothing dropped), and preserves each
confidence class in order (stable ties); the caller-facing
generateChartSuggestions does not re-sort enhanced suggestions. -/
theorem claim_local_ranking_amended :
    ∀ data : ParsedData,
      (generateLocalSuggestions data).Pairwise (fun a b => b.confidence ≤ a.confidence) ∧
      (generateLocalSuggestions data).Perm (localSuggestionCandidates data) ∧
      (∀ c : Int, (generateLocalSuggestions data).filter (fun s => s.confidence == c) =
        (localSuggestionCandidates data).filter (fun s => s.confidence == c)) := by
  intro data
  exact ⟨List.sorted_insertionSort confGE _, List.perm_insertionSort confGE _,
         fun c => filter_insertionSort_conf c _⟩

/-! Shape lemmas for the builders used by the substitution table. -/

/-- Finalizing a single series with a truthy type only fills its data
payload. -/
lemma finalizeSeries_singleton (s : SeriesRec) (h : seriesTypeTruthy s = true) :
    finalizeSeries [s] =
      ([{ s with data := some (match s.data with | some d => d | none => .arr []) }], []) := by
  have hfix : sanitizeSeriesEntry s =
      { s with data := some (match s.data with | some d => d | none => .arr []) } := by
    unfold sanitizeSeriesEntry seriesFixType
    have h1 : seriesTypeTruthy
        { s with data := some (match s.data with | some d => d | none => .arr []) } =
        seriesTypeTruthy s := rfl
    rw [h1, h]
    simp
  have h2 : seriesTypeTruthy
      { s with data := some (match s.data with | some d => d | none => .arr []) } = true := by
    have h1 : seriesTypeTruthy
        { s with data := some (match s.data with | some d => d | none => .arr []) } =
        seriesTypeTruthy s := rfl
    rw [h1]
    exact h
  unfold finalizeSeries validateAndSanitizeSeries
  simp [List.filter_cons, h, hfix, h2]

/-- A successful bar builder returns exactly one series, of type bar. -/
lemma createBarChart_shape (b : EChartsOption) (d : ParsedData) (sg : ChartSuggestion)
    (c : List String) (cc : EChartsOption) (h : createBarChart b d sg c = .ok cc) :
    ∃ s, cc.series = [s] ∧ s.stype = some "bar" ∧ seriesTypeTruthy s = true := by
  simp only [createBarChart] at h
  split at h
  · exact Except.noConfusion h
  · injection h with h2
    subst h2
    exact ⟨_, rfl, rfl, rfl⟩

/-- The scatter builder always succeeds with one series of type scatter. -/
lemma createScatterChart_shape (b : EChartsOption) (d : ParsedData) (sg : ChartSuggestion)
    (c : List String) :
    ∃ cc, createScatterChart b d sg c = .ok cc ∧
      ∃ s, cc.series = [s] ∧ s.stype = some "scatter" ∧ seriesTypeTruthy s = true :=
  ⟨_, rfl, _, rfl, rfl, rfl⟩

/-- The line builder always succeeds with one series of type line (light
area opacity 0.1). -/
lemma createLineChart_shape (b : EChartsOption) (d : ParsedData) (sg : ChartSuggestion)
    (c : List String) :
    ∃ cc, createLineChart b d sg c = .ok cc ∧
      ∃ s, cc.series = [s] ∧ s.stype = some "line" ∧ s.areaOpacity = some ⟨1, 10⟩ ∧
        seriesTypeTruthy s = true :=
  ⟨_, rfl, _, rfl, rfl, rfl, rfl⟩

/-- The area builder always succeeds with one series of type line carrying
the heavy area opacity 0.6. -/
lemma createAreaChart_shape (b : EChartsOption) (d : ParsedData) (sg : ChartSuggestion)
    (c : List String) :
    ∃ cc, createAreaChart b d sg c = .ok cc ∧
      ∃ s, cc.series = [s] ∧ s.stype = some "line" ∧ s.areaOpacity = some ⟨6, 10⟩ ∧
        seriesTypeTruthy s = true :=
  ⟨_, rfl, _, rfl, rfl, rfl, rfl⟩

/-- The first log entry of the dispatched builder survives into the final
log list. -/
lemma synthFinish_warn_mem (t : ChartType) (b : EChartsOption) (d : ParsedData)
    (sg : ChartSuggestion) (w : LogMsg) (rest : List LogMsg)
    (r : Except String EChartsOption) :
    w ∈ (synthFinish t b d sg (w :: rest, r)).1 := by
  unfold synthFinish
  split
  · simp
  · split
    · simp
    · simp

/-- When the dispatched builder succeeded with a single truthy-typed series,
the final configuration carries exactly that series with its data payload
filled. -/
lemma synthFinish_okpair_series (t : ChartType) (b : EChartsOption) (d : ParsedData)
    (sg : ChartSuggestion) (w : List LogMsg) (cc0 : EChartsOption) (cfg : EChartsOption)
    (h : (synthFinish t b d sg (w, .ok cc0)).2 = .ok cfg)
    (s : SeriesRec) (hser : cc0.series = [s]) (htr : seriesTypeTruthy s = true) :
    cfg.series = [{ s with data := some (match s.data with | some d2 => d2 | none => .arr []) }] := by
  unfold synthFinish at h
  dsimp only at h
  injection h with h2
  rw [← h2]
  show (finalizeSeries cc0.series).1 = _
  rw [hser, finalizeSeries_singleton s htr]

/-- When the dispatched builder was the bar builder itself (the sankey and
boxplot substitutions), any successful final configuration carries exactly
one bar-typed series. -/
lemma synthFinish_bar_delegate_series (t : ChartType) (b : EChartsOption) (d : ParsedData)
    (sg : ChartSuggestion) (w : List LogMsg) (cfg : EChartsOption)
    (h : (synthFinish t b d sg (w, createBarChart b d sg colorPalette)).2 = .ok cfg) :
    ∃ s : SeriesRec,
      cfg.series = [{ s with data := some (match s.data with | some d2 => d2 | none => .arr []) }] ∧
      s.stype = some "bar" := by
  cases hbar : createBarChart b d sg colorPalette with
  | ok cc0 =>
      rw [hbar] at h
      rcases createBarChart_shape _ _ _ _ _ hbar with ⟨s, hs1, hs2, hs3⟩
      exact ⟨s, synthFinish_okpair_series _ _ _ _ _ _ _ h s hs1 hs3, hs2⟩
  | error e =>
      rw [hbar] at h
      unfold synthFinish at h
      dsimp only at h
      rw [hbar] at h
      dsimp only at h
      exact Except.noConfusion h

/-- C6 counterexample: a themeRiver suggestion on the Scenario A table
synthesizes a configuration whose actual series type tag is the string line
(the area builder emits line-typed series with area styling), not area as
the claim states. -/
theorem claim_substitution_series_type_counterexample :
    ((createLocalEChartsOption themeRiverSuggestion tableA none rngHalf).2.toOption.map
       (fun c => c.series.map (fun s => s.stype))) = some [some "line"] ∧
    some "line" ≠ some "area" := by
  refine ⟨by decide, by decide⟩

/-- C6 amended: the substitution table is deterministic and flagged by a
warning in the log stream — sankey and boxplot synthesize bar-typed series,
graph scatter-typed series, and candlestick and themeRiver both line-typed
series (candlestick via the line builder with area opacity 0.1, themeRiver
via the area builder with area opacity 0.6, there being no area series type
tag). -/
theorem claim_substitution_table_amended :
    ∀ (data : ParsedData) (suggestion : ChartSuggestion) (title : Option String)
      (rng : Nat → Frac),
      (suggestion.ctype = .sankey →
        LogMsg.sankeyFallbackWarn ∈ (createLocalEChartsOption suggestion data title rng).1 ∧
        ∀ cfg, (createLocalEChartsOption suggestion data title rng).2 = .ok cfg →
          cfg.series.map (fun s => s.stype) = [some "bar"]) ∧
      (suggestion.ctype = .graph →
        LogMsg.graphFallbackWarn ∈ (createLocalEChartsOption suggestion data title rng).1 ∧
        ∀ cfg, (createLocalEChartsOption suggestion data title rng).2 = .ok cfg →
          cfg.series.map (fun s => s.stype) = [some "scatter"]) ∧
      (suggestion.ctype = .boxplot →
        LogMsg.boxplotFallbackWarn ∈ (createLocalEChartsOption suggestion data title rng).1 ∧
        ∀ cfg, (createLocalEChartsOption suggestion data title rng).2 = .ok cfg →
          cfg.series.map (fun s => s.stype) = [some "bar"]) ∧
      (suggestion.ctype = .candlestick →
        LogMsg.candlestickFallbackWarn ∈ (createLocalEChartsOption suggestion data title rng).1 ∧
        ∀ cfg, (createLocalEChartsOption suggestion data title rng).2 = .ok cfg →
          cfg.series.map (fun s => (s.stype, s.areaOpacity)) = [(some "line", some ⟨1, 10⟩)]) ∧
      (suggestion.ctype = .themeRiver →
        LogMsg.themeRiverFallbackWarn ∈ (createLocalEChartsOption suggestion data title rng).1 ∧
        ∀ cfg, (createLocalEChartsOption suggestion data title rng).2 = .ok cfg →
          cfg.series.map (fun s => (s.stype, s.areaOpacity)) = [(some "line", some ⟨6, 10⟩)]) := by
  intro data suggestion title rng
  refine ⟨?_, ?_, ?_, ?_, ?_⟩
  · intro hs
    have hred : createLocalEChartsOption suggestion data title rng =
        synthFinish suggestion.ctype (baseRecOf suggestion title) data suggestion
          ([.sankeyFallbackWarn],
           createBarChart (baseRecOf suggestion title) data suggestion colorPalette) := by
      unfold createLocalEChartsOption
      rw [hs]
      rw [show buildChartByType .sankey (baseRecOf suggestion title) data suggestion
            colorPalette rng =
          ([.sankeyFallbackWarn],
           createBarChart (baseRecOf suggestion title) data suggestion colorPalette)
          from rfl]
    rw [hred]
    refine ⟨synthFinish_warn_mem _ _ _ _ _ _ _, ?_⟩
    intro cfg hcfg
    rcases synthFinish_bar_delegate_series _ _ _ _ _ _ hcfg with ⟨s, hcs, hst⟩
    rw [hcs]
    simp [hst]
  · intro hs
    rcases createScatterChart_shape (baseRecOf suggestion title) data suggestion colorPalette
      with ⟨cc0, hcc0, s, hs1, hs2, hs3⟩
    have hred : createLocalEChartsOption suggestion data title rng =
        synthFinish suggestion.ctype (baseRecOf suggestion title) data suggestion
          ([.graphFallbackWarn], .ok cc0) := by
      unfold createLocalEChartsOption
      rw [hs]
      rw [show buildChartByType .graph (baseRecOf suggestion title) data suggestion
            colorPalette rng =
          ([.graphFallbackWarn],
           createScatterChart (baseRecOf suggestion title) data suggestion colorPalette)
          from rfl, hcc0]
    rw [hred]
    refine ⟨synthFinish_warn_mem _ _ _ _ _ _ _, ?_⟩
    intro cfg hcfg
    rw [synthFinish_okpair_series _ _ _ _ _ _ _ hcfg s hs1 hs3]
    simp [hs2]
  · intro hs
    have hred : createLocalEChartsOption suggestion data title rng =
        synthFinish suggestion.ctype (baseRecOf suggestion title) data suggestion
          ([.boxplotFallbackWarn],
           createBarChart (baseRecOf suggestion title) data suggestion colorPalette) := by
      unfold createLocalEChartsOption
      rw [hs]
      rw [show buildChartByType .boxplot (baseRecOf suggestion title) data suggestion
            colorPalette rng =
          ([.boxplotFallbackWarn],
           createBarChart (baseRecOf suggestion title) data suggestion colorPalette)
          from rfl]
    rw [hred]
    refine ⟨synthFinish_warn_mem _ _ _ _ _ _ _, ?_⟩
    intro cfg hcfg
    rcases synthFinish_bar_delegate_series _ _ _ _ _ _ hcfg with ⟨s, hcs, hst⟩
    rw [hcs]
    simp [hst]
  · intro hs
    rcases createLineChart_shape (baseRecOf suggestion title) data suggestion colorPalette
      with ⟨cc0, hcc0, s, hs1, hs2, hs4, hs3⟩
    have hred : createLocalEChartsOption suggestion data title rng =
        synthFinish suggestion.ctype (baseRecOf suggestion title) data suggestion
          ([.candlestickFallbackWarn], .ok cc0) := by
      unfold createLocalEChartsOption
      rw [hs]
      rw [show buildChartByType .candlestick (baseRecOf suggestion title) data suggestion
            colorPalette rng =
          ([.candlestickFallbackWarn],
           createLineChart (baseRecOf suggestion title) data suggestion colorPalette)
          from rfl, hcc0]
    rw [hred]
    refine ⟨synthFinish_warn_mem _ _ _ _ _ _ _, ?_⟩
    intro cfg hcfg
    rw [synthFinish_okpair_series _ _ _ _ _ _ _ hcfg s hs1 hs3]
    simp [hs2, hs4]
  · intro hs
    rcases createAreaChart_shape (baseRecOf suggestion title) data suggestion colorPalette
      with ⟨cc0, hcc0, s, hs1, hs2, hs4, hs3⟩
    have hred : createLocalEChartsOption suggestion data title rng =
        synthFinish suggestion.ctype (baseRecOf suggestion title) data suggestion
          ([.themeRiverFallbackWarn], .ok cc0) := by
      unfold createLocalEChartsOption
      rw [hs]
      rw [show buildChartByType .themeRiver (baseRecOf suggestion title) data suggestion
            colorPalette rng =
          ([.themeRiverFallbackWarn],
           createAreaChart (baseRecOf suggestion title) data suggestion colorPalette)
          from rfl, hcc0]
    rw [hred]
    refine ⟨synthFinish_warn_mem _ _ _ _ _ _ _, ?_⟩
    intro cfg hcfg
    rw [synthFinish_okpair_series _ _ _ _ _ _ _ hcfg s hs1 hs3]
    simp [hs2, hs4]

/-- Witness for the amended C6: the sankey substitution on the Scenario A
table yields a bar series and is flagged. -/
theorem claim_substitution_table_amended_witness :
    LogMsg.sankeyFallbackWarn ∈ (createLocalEChartsOption sankeySuggestion tableA none rngHalf).1 ∧
    ∃ cfg, (createLocalEChartsOption sankeySuggestion tableA none rngHalf).2 = .ok cfg ∧
      cfg.series.map (fun s => s.stype) = [some "bar"] := by
  have h := (claim_substitution_table_amended tableA sankeySuggestion none rngHalf).1 rfl
  refine ⟨h.1, ?_⟩
  have hsome : (createLocalEChartsOption sankeySuggestion tableA none rngHalf).2.toOption.isSome
      = true := by decide
  rcases hv : (createLocalEChartsOption sankeySuggestion tableA none rngHalf).2.toOption
      with _ | cfg
  · rw [hv] at hsome
    simp at hsome
  · have hok := except_ok_of_toOption _ _ hv
    exact ⟨cfg, hok, h.2 cfg hok⟩

/-- C7 counterexample: an external configuration with title, tooltip and an
empty series array passes the shape check and is returned by the top-level
createEChartsOption instead of being treated as failure and routed to the
local synthesizer. -/
theorem claim_external_config_acceptance_counterexample :
    isValidEChartsOption emptySeriesConfig = true ∧
    (createEChartsOption aiBarSuggestion tableA none (.ok (some emptySeriesConfig)) rngHalf).1
      = .external emptySeriesConfig ∧
    emptySeriesConfig.seriesField = some (.arrV []) := by
  refine ⟨by decide, by decide, by decide⟩

/-- C7 amended: an externally returned configuration is accepted exactly
when the suggestion is tagged aiEnhanced and the configuration passes the
minimal shape check — title present, tooltip present, and a series field
that is an array (possibly empty); array emptiness is not part of the check,
so an empty-series external configuration is accepted rather than falling
back to the local path. -/
theorem claim_external_config_acceptance_amended :
    ∀ (suggestion : ChartSuggestion) (data : ParsedData) (title : Option String)
      (cfg : MCPChartConfig) (rng : Nat → Frac),
      ((createEChartsOption suggestion data title (.ok (some cfg)) rng).1 = .external cfg ↔
        (suggestion.aiEnhanced = some true ∧ isValidEChartsOption cfg = true)) ∧
      (isValidEChartsOption cfg = true ↔
        (cfg.titlePresent = true ∧ cfg.tooltipPresent = true ∧
         ∃ l, cfg.seriesField = some (.arrV l))) := by
  intro suggestion data title cfg rng
  constructor
  · constructor
    · intro h
      by_cases hai : (suggestion.aiEnhanced == some true) = true
      · by_cases hv : isValidEChartsOption cfg = true
        · exact ⟨by simpa using hai, hv⟩
        · simp [createEChartsOption, hai, hv] at h
      · simp [createEChartsOption, hai] at h
    · intro h
      simp [createEChartsOption, h.1, h.2]
  · cases cfg with
    | mk tp tt sf =>
      cases sf with
      | none => simp [isValidEChartsOption]
      | some v =>
        cases v with
        | arrV l => simp [isValidEChartsOption]
        | notArray => simp [isValidEChartsOption]

/-- Witness for the amended C7: the acceptance criterion applied to the
concrete empty-series external configuration. -/
theorem claim_external_config_acceptance_amended_witness :
    (createEChartsOption aiBarSuggestion tableA none (.ok (some emptySeriesConfig)) rngHalf).1
      = .external emptySeriesConfig :=
  ((claim_external_config_acceptance_amended aiBarSuggestion tableA none
      emptySeriesConfig rngHalf).1).mpr ⟨rfl, by decide⟩

/-- A table with a numeric column but no rows at all. -/
def tableNoRows : ParsedData := ⟨[⟨"V", .number, []⟩], [], ⟨0, 1, ["V"], [], []⟩⟩

/-! Finiteness of folded maxima and minima. -/

/-- Folding `Math.max` from a finite seed over finite values stays finite. -/
lemma foldl_jsMax_fin (l : List JsNum) (q0 : Frac) (h : ∀ x ∈ l, x.isFiniteb = true) :
    ∃ q, l.foldl jsMax (.fin q0) = .fin q := by
  induction l generalizing q0 with
  | nil => exact ⟨q0, rfl⟩
  | cons x t ih =>
    have hx := h x (by simp)
    cases x with
    | fin qx =>
        simp only [List.foldl_cons]
        by_cases hb : q0.ble qx = true
        · rw [show jsMax (.fin q0) (.fin qx) = .fin qx from by simp [jsMax, hb]]
          exact ih qx (fun y hy => h y (by simp [hy]))
        · rw [show jsMax (.fin q0) (.fin qx) = .fin q0 from by simp [jsMax, hb]]
          exact ih q0 (fun y hy => h y (by simp [hy]))
    | nan => simp [JsNum.isFiniteb] at hx
    | inf => simp [JsNum.isFiniteb] at hx
    | ninf => simp [JsNum.isFiniteb] at hx

/-- The spread maximum of a nonempty list of finite values is finite. -/
lemma jsMaxList_fin (l : List JsNum) (h : ∀ x ∈ l, x.isFiniteb = true) (hne : l ≠ []) :
    ∃ q, jsMaxList l = .fin q := by
  cases l with
  | nil => exact absurd rfl hne
  | cons x t =>
    have hx := h x (by simp)
    cases x with
    | fin qx =>
        unfold jsMaxList
        simp only [List.foldl_cons]
        rw [show jsMax .ninf (.fin qx) = .fin qx from rfl]
        exact foldl_jsMax_fin t qx (fun y hy => h y (by simp [hy]))
    | nan => simp [JsNum.isFiniteb] at hx
    | inf => simp [JsNum.isFiniteb] at hx
    | ninf => simp [JsNum.isFiniteb] at hx

/-- Folding `Math.min` from a finite seed over finite values stays finite. -/
lemma foldl_jsMin_fin (l : List JsNum) (q0 : Frac) (h : ∀ x ∈ l, x.isFiniteb = true) :
    ∃ q, l.foldl jsMin (.fin q0) = .fin q := by
  induction l generalizing q0 with
  | nil => exact ⟨q0, rfl⟩
  | cons x t ih =>
    have hx := h x (by simp)
    cases x with
    | fin qx =>
        simp only [List.foldl_cons]
        by_cases hb : q0.ble qx = true
        · rw [show jsMin (.fin q0) (.fin qx) = .fin q0 from by simp [jsMin, hb]]
          exact ih q0 (fun y hy => h y (by simp [hy]))
        · rw [show jsMin (.fin q0) (.fin qx) = .fin qx from by simp [jsMin, hb]]
          exact ih qx (fun y hy => h y (by simp [hy]))
    | nan => simp [JsNum.isFiniteb] at hx
    | inf => simp [JsNum.isFiniteb] at hx
    | ninf => simp [JsNum.isFiniteb] at hx

/-- The spread minimum of a nonempty list of finite values is finite. -/
lemma jsMinList_fin (l : List JsNum) (h : ∀ x ∈ l, x.isFiniteb = true) (hne : l ≠ []) :
    ∃ q, jsMinList l = .fin q := by
  cases l with
  | nil => exact absurd rfl hne
  | cons x t =>
    have hx := h x (by simp)
    cases x with
    | fin qx =>
        unfold jsMinList
        simp only [List.foldl_cons]
        rw [show jsMin .inf (.fin qx) = .fin qx from rfl]
        exact foldl_jsMin_fin t qx (fun y hy => h y (by simp [hy]))
    | nan => simp [JsNum.isFiniteb] at hx
    | inf => simp [JsNum.isFiniteb] at hx
    | ninf => simp [JsNum.isFiniteb] at hx

/-- Every element surviving the NaN/finiteness filter is finite. -/
lemma filtered_all_fin (l : List JsNum) :
    ∀ x ∈ l.filter (fun v => !v.isNaNb && v.isFiniteb), x.isFiniteb = true := by
  intro x hx
  have hm := List.mem_filter.mp hx
  have h2 := hm.2
  simp only [Bool.and_eq_true] at h2
  exact h2.2

/-- Multiplying a finite value by the finite literal 1.2 and applying the
zero-fallback yields a finite value. -/
lemma radarMax_fin (m : JsNum) (hq : ∃ q, m = JsNum.fin q) :
    ∃ q2, jsNumOr (m.mulJ (.fin ⟨12, 10⟩)) (.fin (Frac.ofInt 100)) = JsNum.fin q2 := by
  rcases hq with ⟨q, rfl⟩
  rw [show (JsNum.fin q).mulJ (.fin ⟨12, 10⟩) = .fin (q.mul ⟨12, 10⟩) from rfl]
  unfold jsNumOr
  split
  · exact ⟨q.mul ⟨12, 10⟩, rfl⟩
  · exact ⟨Frac.ofInt 100, rfl⟩

/-- C8 counterexample: the gauge builder computes its scale without any
defense — a non-numeric cell makes the gauge maximum NaN, and an empty row
set makes it negative infinity instead of a fixed finite fallback — and in
the parallel builder an infinite cell is filtered out rather than coerced to
0, so the axis minimum is 5, not 0, on a column holding Infinity and 5. -/
theorem claim_defensive_ranges_counterexample :
    ((createGaugeChart baseCfg0 tableGaugeBad gaugeSuggestion colorPalette).toOption.map
       (fun c => c.series.map (fun s => s.maxB))) = some [some JsNum.nan] ∧
    ((createGaugeChart baseCfg0 tableNoRows gaugeSuggestion colorPalette).toOption.map
       (fun c => c.series.map (fun s => s.maxB))) = some [some JsNum.ninf] ∧
    ((createParallelChart baseCfg0 tableInfCell parallelSuggestion colorPalette).toOption.map
       (fun c => c.parallelAxis.map (fun l => l.map (fun a => a.minV)))) =
      some (some [JsNum.fin ⟨5, 1⟩]) ∧
    JsNum.fin ⟨5, 1⟩ ≠ JsNum.fin ⟨0, 1⟩ := by
  refine ⟨by decide, by decide, by decide, by decide⟩

/-- C8 amended: the radar and parallel builders do compute their ranges
defensively — NaN cell values are coerced to 0 by the zero-fallback,
remaining non-finite values are filtered out of the reduction, and an empty
value set takes fixed finite fallbacks — so every radar indicator maximum
and every parallel axis bound is a finite number; the gauge builder performs
no such defense (see the counterexample). -/
theorem claim_defensive_ranges_amended :
    ∀ (base : EChartsOption) (data : ParsedData) (sugg : ChartSuggestion)
      (colors : List String),
      (base.radar = none →
        ∀ cfg rb, createRadarChart base data sugg colors = .ok cfg → cfg.radar = some rb →
          ∀ p ∈ rb.indicator, ∃ q, p.2 = JsNum.fin q) ∧
      (base.parallelAxis = none →
        ∀ cfg axes, createParallelChart base data sugg colors = .ok cfg →
          cfg.parallelAxis = some axes →
          ∀ ax ∈ axes, (∃ q, ax.minV = JsNum.fin q) ∧ (∃ q, ax.maxV = JsNum.fin q)) := by
  intro base data sugg colors
  constructor
  · intro hb cfg rb h hrb
    simp only [createRadarChart] at h
    split at h
    · injection h with h2
      rw [← h2] at hrb
      rw [show ({ base with
            color := some colors
            series := [{ stype := some "bar", data := some (.arr [DataValue.num (.fin (Frac.ofInt 0))]) }]
            xAxis := some (.category [DataValue.str "No Data"])
            yAxis := some (.value none) } : EChartsOption).radar = base.radar from rfl] at hrb
      rw [hb] at hrb
      exact Option.noConfusion hrb
    · injection h with h2
      subst h2
      injection hrb with h3
      intro p hp
      rw [← h3] at hp
      rcases List.mem_map.mp hp with ⟨col, _hcol, rfl⟩
      apply radarMax_fin
      split
      · rename_i hpos
        exact jsMaxList_fin _ (filtered_all_fin _) (List.ne_nil_of_length_pos hpos)
      · exact ⟨Frac.ofInt 100, rfl⟩
  · intro hb cfg axes h haxes
    simp only [createParallelChart] at h
    split at h
    · injection h with h2
      rw [← h2] at haxes
      rw [show ({ base with
            color := some colors
            series := [{ stype := some "bar", data := some (.arr [DataValue.num (.fin (Frac.ofInt 0))]) }]
            xAxis := some (.category [DataValue.str "No Data"])
            yAxis := some (.value none) } : EChartsOption).parallelAxis = base.parallelAxis
          from rfl] at haxes
      rw [hb] at haxes
      exact Option.noConfusion haxes
    · injection h with h2
      subst h2
      injection haxes with h3
      intro ax hax
      rw [← h3] at hax
      rcases List.mem_map.mp hax with ⟨pc, _hpc, rfl⟩
      constructor
      · dsimp only
        split
        · rename_i hpos
          exact jsMinList_fin _ (filtered_all_fin _) (List.ne_nil_of_length_pos hpos)
        · exact ⟨Frac.ofInt 0, rfl⟩
      · dsimp only
        split
        · rename_i hpos
          exact jsMaxList_fin _ (filtered_all_fin _) (List.ne_nil_of_length_pos hpos)
        · exact ⟨Frac.ofInt 100, rfl⟩

/-- Witness for the amended C8 on a concrete two-numeric-column table. -/
theorem claim_defensive_ranges_amended_witness :
    ∃ cfg rb, createRadarChart baseCfg0 tableTwoNum radarSuggestion colorPalette = .ok cfg ∧
      cfg.radar = some rb ∧ ∀ p ∈ rb.indicator, ∃ q, p.2 = JsNum.fin q := by
  have hsome : ((createRadarChart baseCfg0 tableTwoNum radarSuggestion colorPalette).toOption.bind
      (fun c => c.radar)).isSome = true := by decide
  rcases hv : (createRadarChart baseCfg0 tableTwoNum radarSuggestion colorPalette).toOption
      with _ | cfg
  · simp [hv] at hsome
  · have hok := except_ok_of_toOption _ _ hv
    rcases hr : cfg.radar with _ | rb
    · simp [hv, hr] at hsome
    · exact ⟨cfg, rb, hok, hr,
        fun p hp => (claim_defensive_ranges_amended baseCfg0 tableTwoNum radarSuggestion
          colorPalette).1 rfl cfg rb hok hr p hp⟩

/-- When the value column resolves, the builder dispatch never consults the
random stream: only the treemap, sunburst and heatmap builders mention it,
and only on the unresolved-value-column branch. -/
lemma buildChartByType_rng_eq (t : ChartType) (b : EChartsOption) (d : ParsedData)
    (sg : ChartSuggestion) (c : List String) (rng1 rng2 : Nat → Frac)
    (hres : 0 ≤ findColIndex d.columns
      (jsOrStrOpt (sg.yAxis.bind List.head?) d.summary.numericColumns.head?)) :
    buildChartByType t b d sg c rng1 = buildChartByType t b d sg c rng2 := by
  cases t
  case heatmap => simp [buildChartByType, createHeatmapChart, hres]
  case treemap => simp [buildChartByType, createTreemapChart, hres]
  case sunburst => simp [buildChartByType, createSunburstChart, hres]
  all_goals rfl

/-- C9 counterexample: synthesis is not deterministic — a treemap suggestion
on a table without a resolvable value column draws its values from
Math.random, so two invocations with different random draws produce
different RenderConfigs. -/
theorem claim_synthesis_determinism_counterexample :
    createLocalEChartsOption treemapSuggestion tableStrOnly none rngHalf ≠
      createLocalEChartsOption treemapSuggestion tableStrOnly none rngQuarter := by
  decide

/-- C9 amended: configuration synthesis is deterministic for every chart
type — including treemap, sunburst and heatmap — whenever the value column
resolves (the suggestion's first yAxis entry, or else the first numeric
column, names an existing column); only the unresolved-value-column branch
of those three builders consults Math.random. -/
theorem claim_synthesis_determinism_amended :
    ∀ (suggestion : ChartSuggestion) (data : ParsedData) (title : Option String)
      (rng1 rng2 : Nat → Frac),
      0 ≤ findColIndex data.columns
        (jsOrStrOpt (suggestion.yAxis.bind List.head?) data.summary.numericColumns.head?) →
      createLocalEChartsOption suggestion data title rng1 =
        createLocalEChartsOption suggestion data title rng2 := by
  intro suggestion data title rng1 rng2 hres
  unfold createLocalEChartsOption
  rw [buildChartByType_rng_eq suggestion.ctype (baseRecOf suggestion title) data suggestion
    colorPalette rng1 rng2 hres]

/-- Witness for the amended C9: treemap synthesis on the Scenario A table is
independent of the random stream. -/
theorem claim_synthesis_determinism_amended_witness :
    createLocalEChartsOption treemapSuggestion tableA none rngHalf =
      createLocalEChartsOption treemapSuggestion tableA none rngQuarter :=
  claim_synthesis_determinism_amended treemapSuggestion tableA none rngHalf rngQuarter
    (by decide)

/-- Processing external suggestions preserves their count. -/
lemma processMCPSuggestions_length (l : List MCPSuggestion) :
    (processMCPSuggestions l).length = l.length := by
  simp [processMCPSuggestions]

/-- C10 counterexample: on a table with only a date column the mock produces
no suggestions, so generateChartSuggestions — despite the singleton always
reporting the service available — takes the local-generator path (marked by
its log) and returns the seven-rule local generator's output, contradicting
that the enhanced path is taken for every Table. -/
theorem claim_singleton_enhanced_path_counterexample :
    LogMsg.usingLocalSuggestions ∈ (generateChartSuggestions mcpEChartsService tableDateOnly).2.2 ∧
    (generateChartSuggestions mcpEChartsService tableDateOnly).1 =
      generateLocalSuggestions tableDateOnly := by
  refine ⟨by decide, by decide⟩

/-- C10 amended: the exported singleton is constructed enabled, its
availability check returns true unconditionally, and initialize() returns
true (as a total function) with the state connected for every enabled
client; consequently the enhanced-suggestion path is taken — and every
returned entry tagged aiEnhanced — exactly for those Tables on which the
mock produces at least one suggestion, while for the remaining Tables the
seven-rule local generator runs (returning its own, there empty, output). -/
theorem claim_singleton_availability_amended :
    mcpEChartsService.config.enabled = true ∧
    (∀ st : MCPServiceState, checkServerAvailability st = true) ∧
    (∀ st : MCPServiceState, st.config.enabled = true →
      (serviceInit st).1 = true ∧ (serviceInit st).2.1.isConnected = true) ∧
    (∀ data : ParsedData,
      (mockGenerateSuggestions (prepareDataForMCP data) ≠ [] →
        LogMsg.usingLocalSuggestions ∉ (generateChartSuggestions mcpEChartsService data).2.2 ∧
        ∀ s ∈ (generateChartSuggestions mcpEChartsService data).1, s.aiEnhanced = some true) ∧
      (mockGenerateSuggestions (prepareDataForMCP data) = [] →
        (generateChartSuggestions mcpEChartsService data).1 = generateLocalSuggestions data ∧
        LogMsg.usingLocalSuggestions ∈ (generateChartSuggestions mcpEChartsService data).2.2)) := by
  refine ⟨rfl, fun st => rfl, ?_, ?_⟩
  · intro st h
    simp [serviceInit, h, checkServerAvailability]
  · intro data
    have hred : generateChartSuggestions mcpEChartsService data =
        (if (processMCPSuggestions (mockGenerateSuggestions (prepareDataForMCP data))).length > 0
         then
           ((processMCPSuggestions (mockGenerateSuggestions (prepareDataForMCP data))).map
              (fun s => { s with aiEnhanced := some true }),
            { config := { serverUrl := none, enabled := true }, isConnected := true },
            [LogMsg.mcpTestingMode] ++ [LogMsg.mcpConnected] ++
              [LogMsg.gotMcpSuggestions (mockGenerateSuggestions (prepareDataForMCP data)).length])
         else
           (generateLocalSuggestions data,
            { config := { serverUrl := none, enabled := true }, isConnected := true },
            ([LogMsg.mcpTestingMode] ++ [LogMsg.mcpConnected] ++
              [LogMsg.gotMcpSuggestions (mockGenerateSuggestions (prepareDataForMCP data)).length]) ++
              [LogMsg.usingLocalSuggestions])) := rfl
    constructor
    · intro hne
      have hlen : 0 < (processMCPSuggestions (mockGenerateSuggestions (prepareDataForMCP data))).length := by
        rw [processMCPSuggestions_length]
        exact List.length_pos.mpr hne
      rw [hred, if_pos hlen]
      constructor
      · simp
      · intro s hs
        rcases List.mem_map.mp hs with ⟨t, _ht, rfl⟩
        rfl
    · intro hz
      have hlen : ¬ 0 < (processMCPSuggestions (mockGenerateSuggestions (prepareDataForMCP data))).length := by
        rw [processMCPSuggestions_length, hz]
        simp
      rw [hred, if_neg hlen]
      exact ⟨rfl, by simp⟩

/-- Witness for the amended C10: the singleton initializes available and the
enhanced path is taken on the Scenario A table with every entry tagged. -/
theorem claim_singleton_availability_amended_witness :
    (serviceInit mcpEChartsService).1 = true ∧
    (LogMsg.usingLocalSuggestions ∉ (generateChartSuggestions mcpEChartsService tableA).2.2 ∧
     ∀ s ∈ (generateChartSuggestions mcpEChartsService tableA).1, s.aiEnhanced = some true) := by
  refine ⟨(claim_singleton_availability_amended.2.2.1 mcpEChartsService rfl).1, ?_⟩
  exact (claim_singleton_availability_amended.2.2.2 tableA).1 (by decide)
